import Mathlib

/-!
Shallow embedding of the morlock chess engine core (Go) and proofs checking
its natural-language specification against the code.

Conventions of the embedding:
- uint64 bitboards are Nat with explicit wrap (mod 2 ^ 64) on left shifts;
  and / or / xor / right shift need no wrap.
- uint8 enumerations (Color, Piece, Square, MoveType, Castling, Outcome) are
  Nat constants with the numeric values of the Go constants.
- int8 mate counts and int64 durations are Int with explicit wrap where the
  code can overflow.
- The Go float32 type Pawns only carries small integral values in everything
  proved here; it is modeled as Int (exact for all inputs in scope).
- Go maps and arrays of entries are modeled as functions and lists; struct
  equality in Go corresponds to structure equality here.
-/

namespace Morlock

/-- All 64 bits set, the uint64 complement mask. -/
def mask64 : Nat := 2 ^ 64 - 1

/-- Go uint64 left shift: wraps modulo 2 ^ 64. -/
def shl (x k : Nat) : Nat := (x <<< k) % 2 ^ 64

/-- Go uint64 bitwise complement. -/
def compl64 (x : Nat) : Nat := x ^^^ mask64

/-- Square.Rank: bits 3-5 of the square index (board.Square.Rank). -/
def rankOf (sq : Nat) : Nat := (sq >>> 3) &&& 7

/-- Square.File: bits 0-2 of the square index (board.Square.File). -/
def fileOf (sq : Nat) : Nat := sq &&& 7

/-- NewSquare builds a square from file and rank (board.NewSquare). -/
def newSquare (f r : Nat) : Nat := ((r &&& 7) <<< 3) ||| (f &&& 7)

/-- BitMask returns a bitboard with the given square set (board.BitMask).
Go computes 1 << sq on uint64, which wraps to 0 for sq over 63. -/
def bitMask (sq : Nat) : Nat := (1 <<< sq) % 2 ^ 64

/-- BitRank returns the bitboard of a rank (board.BitRank). -/
def bitRank (r : Nat) : Nat := (0xff <<< (r <<< 3)) % 2 ^ 64

/-- BitFile returns the bitboard of a file (board.BitFile). -/
def bitFile (f : Nat) : Nat := (0x0101010101010101 <<< f) % 2 ^ 64

/-- Bitboard.IsSet (board.Bitboard.IsSet). -/
def isSet (b sq : Nat) : Bool := b &&& bitMask sq != 0

/-- Bitboard.PopCount: number of set bits of the uint64 (board.Bitboard.PopCount). -/
def popCount (b : Nat) : Nat :=
  ((List.range 64).filter (fun i => b.testBit i)).length

/-- Bitboard.LastPopSquare: the index of the least significant set bit,
64 when the board is empty (board.Bitboard.LastPopSquare). -/
def lastPopSquare (b : Nat) : Nat :=
  (((List.range 64).filter (fun i => b.testBit i)).headD 64)

/-- The squares of a bitboard in the order the Go loops visit them: repeated
LastPopSquare and clearing, which is ascending square index order. -/
def popSquares (b : Nat) : List Nat :=
  (List.range 64).filter (fun i => b.testBit i)

/-- Color constants: White = 0, Black = 1 (board.Color). -/
def white : Nat := 0

/-- Black color constant (board.Color). -/
def black : Nat := 1

/-- Color.Opponent (board.Color.Opponent). -/
def opponent (c : Nat) : Nat := if c = white then black else white

/-- Piece constants (board.Piece): NoPiece = 0, then Pawn to King. -/
def noPiece : Nat := 0

/-- Pawn piece constant. -/
def pawnP : Nat := 1

/-- Bishop piece constant. -/
def bishopP : Nat := 2

/-- Knight piece constant. -/
def knightP : Nat := 3

/-- Rook piece constant. -/
def rookP : Nat := 4

/-- Queen piece constant. -/
def queenP : Nat := 5

/-- King piece constant. -/
def kingP : Nat := 6

/-- Iteration list for officers in move generation (board.QueenRookKnightBishop). -/
def queenRookKnightBishop : List Nat := [queenP, rookP, knightP, bishopP]

/-- Iteration list for attack detection (board.KingQueenRookKnightBishop). -/
def kingQueenRookKnightBishop : List Nat := [kingP, queenP, rookP, knightP, bishopP]

/-- PawnCaptureboard (board.PawnCaptureboard): potential pawn captures. -/
def pawnCaptureboard (c pawns : Nat) : Nat :=
  if c = white then
    ((shl pawns 9) &&& compl64 (bitFile 0)) ||| ((shl pawns 7) &&& compl64 (bitFile 7))
  else
    ((pawns >>> 9) &&& compl64 (bitFile 7)) ||| ((pawns >>> 7) &&& compl64 (bitFile 0))

/-- PawnMoveboard (board.PawnMoveboard): potential single pawn pushes. -/
def pawnMoveboard (all c pawns : Nat) : Nat :=
  if c = white then (shl pawns 8) &&& compl64 all else (pawns >>> 8) &&& compl64 all

/-- PawnPromotionRank (board.PawnPromotionRank). -/
def pawnPromotionRank (c : Nat) : Nat :=
  if c = white then bitRank 7 else bitRank 0

/-- PawnJumpRank (board.PawnJumpRank). -/
def pawnJumpRank (c : Nat) : Nat :=
  if c = white then bitRank 3 else bitRank 4

/-- KingAttackboard entry, computed as in the Go package init loop:
grow the square mask sideways with file cropping, then vertically, and
remove the origin square (board.KingAttackboard). -/
def kingAttackboard (sq : Nat) : Nat :=
  let t0 := bitMask sq
  let t1 := t0 ||| ((shl t0 1) &&& compl64 (bitFile 0)) ||| ((t0 >>> 1) &&& compl64 (bitFile 7))
  let t2 := t1 ||| shl t1 8 ||| (t1 >>> 8)
  t2 &&& compl64 (bitMask sq)

/-- KnightAttackboard entry, computed as in the Go package init loop
(board.KnightAttackboard). -/
def knightAttackboard (sq : Nat) : Nat :=
  let one := ((shl (bitMask sq) 1) &&& compl64 (bitFile 0)) |||
    (((bitMask sq) >>> 1) &&& compl64 (bitFile 7))
  let two := ((shl (bitMask sq) 2) &&& compl64 (bitFile 1 ||| bitFile 0)) |||
    (((bitMask sq) >>> 2) &&& compl64 (bitFile 7 ||| bitFile 6))
  shl one 16 ||| (one >>> 16) ||| shl two 8 ||| (two >>> 8)

/-- Ascending ray trace with early stop at the first blocker, the body of the
Go table-building loops: visit line indices i, i+1, ... while below the bound,
or-ing the square of each visited index, and stop after the first index whose
state bit is set. sqF maps a line index to its square; stF maps it to its bit
in the occupancy state. The fuel argument only bounds the eight loop steps. -/
def rayGo (sqF stF : Nat → Nat) (bound state : Nat) : Nat → Nat → Nat
  | _, 0 => 0
  | i, fuel+1 =>
    if i < bound then
      bitMask (sqF i) |||
        (if (bitMask (stF i)) &&& state != 0 then 0 else rayGo sqF stF bound state (i+1) fuel)
    else 0

/-- Descending ray trace with early stop, mirroring the Go loops that walk a
line index i, i-1, ... down to 0. Entered only with a valid start index. -/
def rayGoDesc (sqF stF : Nat → Nat) (state : Nat) : Nat → Nat → Nat
  | _, 0 => 0
  | i, fuel+1 =>
    bitMask (sqF i) |||
      (if (bitMask (stF i)) &&& state != 0 then 0
       else if i = 0 then 0 else rayGoDesc sqF stF state (i-1) fuel)

/-- One rookrank table entry: ray trace right then left along the rank of the
square, as in the Go init loop for rookrank (board.RookAttackboard tables). -/
def rookrankEntry (sq state : Nat) : Nat :=
  let rk := rankOf sq
  let fl := fileOf sq
  let right := rayGo (fun i => i + (rk <<< 3)) (fun i => i) 8 state (fl + 1) 8
  let leftPart := if fl = 0 then 0 else rayGoDesc (fun i => i + (rk <<< 3)) (fun i => i) state (fl - 1) 8
  right ||| leftPart

/-- One rookfile table entry: ray trace down then up along the file of the
square in rot90 coordinates, as in the Go init loop for rookfile. -/
def rookfileEntry (sq state : Nat) : Nat :=
  let rk := rankOf sq
  let fl := fileOf sq
  let down := rayGo (fun i => fl + (i <<< 3)) (fun i => i) 8 state (rk + 1) 8
  let up := if rk = 0 then 0 else rayGoDesc (fun i => fl + (i <<< 3)) (fun i => i) state (rk - 1) 8
  down ||| up

/-- One bishopL table entry: up-left then down-right diagonal rays, as in the
Go init loop for bishopL (board.BishopAttackboard tables). -/
def bishopLEntry (sq state : Nat) : Nat :=
  let rk := rankOf sq
  let fl := fileOf sq
  let upLeft := rayGo (fun i => ((rk + i) <<< 3) + (fl + i)) (fun i => min rk fl + i)
    (min (8 - rk) (8 - fl)) state 1 8
  let downRight := rayGo (fun i => ((rk - i) <<< 3) + (fl - i)) (fun i => min rk fl - i)
    (min rk fl + 1) state 1 8
  upLeft ||| downRight

/-- One bishopR table entry: up-right then down-left diagonal rays, as in the
Go init loop for bishopR. -/
def bishopREntry (sq state : Nat) : Nat :=
  let rk := rankOf sq
  let fl := fileOf sq
  let upRight := rayGo (fun i => ((rk + i) <<< 3) + (fl - i)) (fun i => min rk (7 - fl) + i)
    (min (8 - rk) (fl + 1)) state 1 8
  let downLeft := rayGo (fun i => ((rk - i) <<< 3) + (fl + i)) (fun i => min rk (7 - fl) - i)
    (min (rk + 1) (8 - fl)) state 1 8
  upRight ||| downLeft

/-- The rot90 square permutation table (board score.go rot90). -/
def rot90Tab : List Nat :=
  [0, 8, 16, 24, 32, 40, 48, 56,
   1, 9, 17, 25, 33, 41, 49, 57,
   2, 10, 18, 26, 34, 42, 50, 58,
   3, 11, 19, 27, 35, 43, 51, 59,
   4, 12, 20, 28, 36, 44, 52, 60,
   5, 13, 21, 29, 37, 45, 53, 61,
   6, 14, 22, 30, 38, 46, 54, 62,
   7, 15, 23, 31, 39, 47, 55, 63]

/-- The rot45L square permutation table (board score.go rot45L). -/
def rot45LTab : List Nat :=
  [28, 21, 15, 10, 6, 3, 1, 0,
   36, 29, 22, 16, 11, 7, 4, 2,
   43, 37, 30, 23, 17, 12, 8, 5,
   49, 44, 38, 31, 24, 18, 13, 9,
   54, 50, 45, 39, 32, 25, 19, 14,
   58, 55, 51, 46, 40, 33, 26, 20,
   61, 59, 56, 52, 47, 41, 34, 27,
   63, 62, 60, 57, 53, 48, 42, 35]

/-- The mask45L diagonal mask table (board score.go mask45L). -/
def mask45LTab : List Nat :=
  [255, 127, 63, 31, 15, 7, 3, 1,
   127, 255, 127, 63, 31, 15, 7, 3,
   63, 127, 255, 127, 63, 31, 15, 7,
   31, 63, 127, 255, 127, 63, 31, 15,
   15, 31, 63, 127, 255, 127, 63, 31,
   7, 15, 31, 63, 127, 255, 127, 63,
   3, 7, 15, 31, 63, 127, 255, 127,
   1, 3, 7, 15, 31, 63, 127, 255]

/-- The off45L diagonal offset table (board score.go off45L). -/
def off45LTab : List Nat :=
  [28, 21, 15, 10, 6, 3, 1, 0,
   36, 28, 21, 15, 10, 6, 3, 1,
   43, 36, 28, 21, 15, 10, 6, 3,
   49, 43, 36, 28, 21, 15, 10, 6,
   54, 49, 43, 36, 28, 21, 15, 10,
   58, 54, 49, 43, 36, 28, 21, 15,
   61, 58, 54, 49, 43, 36, 28, 21,
   63, 61, 58, 54, 49, 43, 36, 28]

/-- The rot45R square permutation table (board score.go rot45R). -/
def rot45RTab : List Nat :=
  [0, 1, 3, 6, 10, 15, 21, 28,
   2, 4, 7, 11, 16, 22, 29, 36,
   5, 8, 12, 17, 23, 30, 37, 43,
   9, 13, 18, 24, 31, 38, 44, 49,
   14, 19, 25, 32, 39, 45, 50, 54,
   20, 26, 33, 40, 46, 51, 55, 58,
   27, 34, 41, 47, 52, 56, 59, 61,
   35, 42, 48, 53, 57, 60, 62, 63]

/-- The mask45R diagonal mask table (board score.go mask45R). -/
def mask45RTab : List Nat :=
  [1, 3, 7, 15, 31, 63, 127, 255,
   3, 7, 15, 31, 63, 127, 255, 127,
   7, 15, 31, 63, 127, 255, 127, 63,
   15, 31, 63, 127, 255, 127, 63, 31,
   31, 63, 127, 255, 127, 63, 31, 15,
   63, 127, 255, 127, 63, 31, 15, 7,
   127, 255, 127, 63, 31, 15, 7, 3,
   255, 127, 63, 31, 15, 7, 3, 1]

/-- The off45R diagonal offset table (board score.go off45R). -/
def off45RTab : List Nat :=
  [0, 1, 3, 6, 10, 15, 21, 28,
   1, 3, 6, 10, 15, 21, 28, 36,
   3, 6, 10, 15, 21, 28, 36, 43,
   6, 10, 15, 21, 28, 36, 43, 49,
   10, 15, 21, 28, 36, 43, 49, 54,
   15, 21, 28, 36, 43, 49, 54, 58,
   21, 28, 36, 43, 49, 54, 58, 61,
   28, 36, 43, 49, 54, 58, 61, 63]

/-- RotatedBitboard: the board population in four orientations
(board.RotatedBitboard). -/
structure RotatedBitboard where
  rot : Nat
  rot90 : Nat
  rot45L : Nat
  rot45R : Nat
deriving DecidableEq

/-- The empty rotated bitboard. -/
def emptyRotated : RotatedBitboard := ⟨0, 0, 0, 0⟩

/-- RotatedBitboard.Xor toggles a square in all four orientations
(board.RotatedBitboard.Xor). -/
def RotatedBitboard.xorSq (r : RotatedBitboard) (sq : Nat) : RotatedBitboard :=
  { rot := r.rot ^^^ bitMask sq
    rot90 := r.rot90 ^^^ bitMask (rot90Tab.getD sq 0)
    rot45L := r.rot45L ^^^ bitMask (rot45LTab.getD sq 0)
    rot45R := r.rot45R ^^^ bitMask (rot45RTab.getD sq 0) }

/-- RookAttackboard: rank and file ray lookups from the rotated occupancy
(board.RookAttackboard). -/
def rookAttackboard (rb : RotatedBitboard) (sq : Nat) : Nat :=
  let rankState := (rb.rot >>> ((rankOf sq) <<< 3)) &&& 0xff
  let fileState := (rb.rot90 >>> ((fileOf sq) <<< 3)) &&& 0xff
  rookrankEntry sq rankState ||| rookfileEntry sq fileState

/-- BishopAttackboard: the two diagonal ray lookups from the rotated occupancy
(board.BishopAttackboard). -/
def bishopAttackboard (rb : RotatedBitboard) (sq : Nat) : Nat :=
  let diagL := (rb.rot45L >>> (off45LTab.getD sq 0)) &&& mask45LTab.getD sq 0
  let diagR := (rb.rot45R >>> (off45RTab.getD sq 0)) &&& mask45RTab.getD sq 0
  bishopLEntry sq diagL ||| bishopREntry sq diagR

/-- QueenAttackboard (board.QueenAttackboard). -/
def queenAttackboard (rb : RotatedBitboard) (sq : Nat) : Nat :=
  rookAttackboard rb sq ||| bishopAttackboard rb sq

/-- Attackboard dispatches on the officer piece (board.Attackboard). The Go
default branch panics and is unreachable for valid officers; it is 0 here. -/
def attackboard (rb : RotatedBitboard) (sq piece : Nat) : Nat :=
  if piece = kingP then kingAttackboard sq
  else if piece = queenP then queenAttackboard rb sq
  else if piece = rookP then rookAttackboard rb sq
  else if piece = bishopP then bishopAttackboard rb sq
  else if piece = knightP then knightAttackboard sq
  else 0

/-- Castling right bit: white king side (board.WhiteKingSideCastle). -/
def whiteKingSideCastle : Nat := 1

/-- Castling right bit: white queen side. -/
def whiteQueenSideCastle : Nat := 2

/-- Castling right bit: black king side. -/
def blackKingSideCastle : Nat := 4

/-- Castling right bit: black queen side. -/
def blackQueenSideCastle : Nat := 8

/-- All four castling rights (board.FullCastingRights). -/
def fullCastlingRights : Nat := 15

/-- Castling.IsAllowed (board.Castling.IsAllowed). -/
def castlingIsAllowed (c right : Nat) : Bool := c &&& right != 0

/-- MoveType constants (board/move.go): Normal = 1 + iota. -/
def normalM : Nat := 1

/-- Push pawn move type. -/
def pushM : Nat := 2

/-- Jump pawn two-square move type. -/
def jumpM : Nat := 3

/-- EnPassant move type. -/
def enPassantM : Nat := 4

/-- QueenSideCastle move type. -/
def queenSideCastleM : Nat := 5

/-- KingSideCastle move type. -/
def kingSideCastleM : Nat := 6

/-- Capture move type. -/
def captureM : Nat := 7

/-- Promotion move type. -/
def promotionM : Nat := 8

/-- CapturePromotion move type. -/
def capturePromotionM : Nat := 9

/-- Move with contextual metadata (board.Move). The zero value has type 0,
which Go treats as invalid. -/
structure Move where
  type : Nat := 0
  fromSq : Nat := 0
  toSq : Nat := 0
  piece : Nat := 0
  promotion : Nat := 0
  capture : Nat := 0
deriving DecidableEq

/-- The zero Move value. -/
def zeroMove : Move := {}

/-- Move.IsCapture (board.Move.IsCapture). -/
def Move.isCapture (m : Move) : Bool :=
  m.type == capturePromotionM || m.type == captureM

/-- Move.IsPromotion (board.Move.IsPromotion). -/
def Move.isPromotion (m : Move) : Bool :=
  m.type == capturePromotionM || m.type == promotionM

/-- Move.IsCastle (board.Move.IsCastle). -/
def Move.isCastle (m : Move) : Bool :=
  m.type == kingSideCastleM || m.type == queenSideCastleM

/-- Move.Equals compares from, to and promotion only (board.Move.Equals). -/
def Move.equals (m o : Move) : Bool :=
  m.fromSq == o.fromSq && m.toSq == o.toSq && m.promotion == o.promotion

/-- Move.EnPassantTarget (board.Move.EnPassantTarget): the en passant target
square of a Jump move. The Go second return is the bool. -/
def Move.enPassantTarget (m : Move) : Nat × Bool :=
  if m.type ≠ jumpM then (0, false)
  else if rankOf m.toSq = 3 then (newSquare (fileOf m.toSq) 2, true)
  else (newSquare (fileOf m.toSq) 5, true)

/-- Move.EnPassantCapture (board.Move.EnPassantCapture): the square of the
pawn captured en passant. -/
def Move.enPassantCapture (m : Move) : Nat × Bool :=
  if m.type ≠ enPassantM then (0, false)
  else if rankOf m.toSq = 2 then (newSquare (fileOf m.toSq) 3, true)
  else (newSquare (fileOf m.toSq) 4, true)

/-- Move.CastlingRookMove (board.Move.CastlingRookMove): the implicit rook
move of a castle. Squares: E1 = 3, H1 = 0, F1 = 2, A1 = 7, D1 = 4,
E8 = 59, H8 = 56, F8 = 58, A8 = 63, D8 = 60. -/
def Move.castlingRookMove (m : Move) : Nat × Nat × Bool :=
  if m.type = kingSideCastleM ∧ m.fromSq = 3 then (0, 2, true)
  else if m.type = queenSideCastleM ∧ m.fromSq = 3 then (7, 4, true)
  else if m.type = kingSideCastleM ∧ m.fromSq = 59 then (56, 58, true)
  else if m.type = queenSideCastleM ∧ m.fromSq = 59 then (63, 60, true)
  else (0, 0, false)

/-- Move.CastlingRightsLost (board.Move.CastlingRightsLost): the Go switch
returns the first matching case only. -/
def Move.castlingRightsLost (m : Move) : Nat :=
  if m.fromSq = 3 then whiteKingSideCastle ||| whiteQueenSideCastle
  else if m.fromSq = 7 ∨ m.toSq = 7 then whiteQueenSideCastle
  else if m.fromSq = 0 ∨ m.toSq = 0 then whiteKingSideCastle
  else if m.fromSq = 59 then blackKingSideCastle ||| blackQueenSideCastle
  else if m.fromSq = 63 ∨ m.toSq = 63 then blackQueenSideCastle
  else if m.fromSq = 56 ∨ m.toSq = 56 then blackKingSideCastle
  else 0

/-- Position: bitboards per color and piece, rotated occupancy, castling
rights and en passant square (board.Position). The pieces field is the Go
two-by-seven array of bitboards; index 0 per color aggregates the color. -/
structure Position where
  pieces : List (List Nat)
  rotated : RotatedBitboard
  castling : Nat
  enpassant : Nat
deriving DecidableEq

/-- Read a piece bitboard (Go p.pieces[c][piece]). -/
def Position.pb (p : Position) (c piece : Nat) : Nat :=
  (p.pieces.getD c []).getD piece 0

/-- Write a piece bitboard. -/
def Position.setPb (p : Position) (c piece v : Nat) : Position :=
  { p with pieces := p.pieces.set c ((p.pieces.getD c []).set piece v) }

/-- Position.xor: toggle a placement (board position.go xor): flips the
rotated boards, the color aggregate and the piece bitboard. -/
def Position.xorP (p : Position) (sq c piece : Nat) : Position :=
  let p1 := { p with rotated := p.rotated.xorSq sq }
  let p2 := p1.setPb c 0 (p1.pb c 0 ^^^ bitMask sq)
  p2.setPb c piece (p2.pb c piece ^^^ bitMask sq)

/-- The empty position with no rights. -/
def emptyPosition : Position :=
  { pieces := [[0, 0, 0, 0, 0, 0, 0], [0, 0, 0, 0, 0, 0, 0]]
    rotated := emptyRotated
    castling := 0
    enpassant := 0 }

/-- Position.IsEmpty (board.Position.IsEmpty). -/
def Position.isEmptySq (p : Position) (sq : Nat) : Bool :=
  !(isSet p.rotated.rot sq)

/-- Position.Square: the color and piece on a square if any
(board.Position.Square). Returns (color, piece, ok). -/
def Position.squareAt (p : Position) (sq : Nat) : Nat × Nat × Bool :=
  if p.isEmptySq sq then (0, 0, false)
  else
    let hit := ((List.range 2).map (fun c =>
      if isSet (p.pb c 0) sq then
        (((List.range 6).map (fun i => i + 1)).filter (fun piece => isSet (p.pb c piece) sq)).map
          (fun piece => (c, piece))
      else [])).flatten
    match hit with
    | [] => (0, 0, false)
    | (c, piece) :: _ => (c, piece, true)

/-- Position.IsAttacked: whether the square is attacked by the opponent of c
(board.Position.IsAttacked). -/
def Position.isAttacked (p : Position) (c sq : Nat) : Bool :=
  let opp := opponent c
  (kingQueenRookKnightBishop.any (fun piece =>
    let pieces := p.pb opp piece
    pieces != 0 && (attackboard p.rotated sq piece &&& pieces) != 0)) ||
  ((pawnCaptureboard opp (p.pb opp pawnP) &&& bitMask sq) != 0)

/-- Position.IsChecked (board.Position.IsChecked). -/
def Position.isChecked (p : Position) (c : Nat) : Bool :=
  let pos := lastPopSquare (p.pb c kingP)
  if pos ≠ 64 then p.isAttacked c pos else false

/-- safeCastlingSquares (board position.go): squares that must not be
attacked for the castle to be legal. -/
def safeCastlingSquares (c t : Nat) : List Nat :=
  if c = white then
    if t = kingSideCastleM then [3, 2]
    else if t = queenSideCastleM then [3, 4]
    else []
  else
    if t = kingSideCastleM then [59, 58]
    else if t = queenSideCastleM then [59, 60]
    else []

/-- The position state built by Position.Move before its legality tests
(board.Position.Move steps 1 to 5): remove the mover, remove any captured
piece, add the mover or promotion piece, handle en passant and castling rook
movement, then update en passant and castling status. -/
def Position.moveResult (p : Position) (m : Move) : Position :=
  let tp := p.squareAt m.fromSq
  let turn := tp.1
  let piece := tp.2.1
  let r1 := p.xorP m.fromSq turn piece
  let r2 := if m.isCapture then r1.xorP m.toSq (opponent turn) m.capture else r1
  let piece2 := if m.isPromotion then m.promotion else piece
  let r3 := r2.xorP m.toSq turn piece2
  let r4 :=
    if m.type = enPassantM then
      r3.xorP (m.enPassantCapture).1 (opponent turn) pawnP
    else if m.type = kingSideCastleM ∨ m.type = queenSideCastleM then
      let rm := m.castlingRookMove
      (r3.xorP rm.1 turn rookP).xorP rm.2.1 turn rookP
    else r3
  { r4 with
    enpassant := (m.enPassantTarget).1
    castling := r4.castling &&& compl64 m.castlingRightsLost }

/-- The legality outcome of Position.Move (board.Position.Move): the from
square must be occupied, castling transit squares must not be attacked in the
old position, and the mover must not be left in check in the new position. -/
def Position.moveOk (p : Position) (m : Move) : Bool :=
  let tp := p.squareAt m.fromSq
  let turn := tp.1
  if !tp.2.2 then false
  else if (m.type == kingSideCastleM || m.type == queenSideCastleM) &&
      (safeCastlingSquares turn m.type).any (fun sq => p.isAttacked turn sq) then false
  else !((p.moveResult m).isChecked turn)

/-- Position.Move: apply a pseudo-legal move, or none if not legal
(board.Position.Move). -/
def Position.move (p : Position) (m : Move) : Option Position :=
  if p.moveOk m then some (p.moveResult m) else none

/-- Position.captureAt: the opposing piece on a square (board position.go
captureAt). The Go loop scans pieces 1 to 6 and returns the first hit. -/
def Position.captureAt (p : Position) (sq turn : Nat) : Nat :=
  ((((List.range 6).map (fun i => i + 1)).filter
    (fun piece => isSet (p.pb (opponent turn) piece) sq)).headD noPiece)

/-- emitMove: one Move per set square of the attackboard, in pop order
(board position.go emitMove). -/
def Position.emitMove (p : Position) (turn t piece frm bb : Nat) : List Move :=
  (popSquares bb).map (fun tosq =>
    { type := t, piece := piece, fromSq := frm, toSq := tosq
      capture := if t = captureM then p.captureAt tosq turn else noPiece })

/-- emitPromo: four promotion Moves per set square, in the Go piece order
queen, rook, knight, bishop (board position.go emitPromo). -/
def Position.emitPromo (p : Position) (turn t piece frm bb : Nat) : List Move :=
  ((popSquares bb).map (fun tosq =>
    let capture := if t = capturePromotionM then p.captureAt tosq turn else noPiece
    queenRookKnightBishop.map (fun pc =>
      { type := t, piece := piece, fromSq := frm, toSq := tosq, capture := capture
        promotion := pc : Move }))).flatten

/-- PseudoLegalMoves (board.Position.PseudoLegalMoves): officers, pawns with
pushes, jumps, promotions and en passant, then king moves and castling. -/
def Position.pseudoLegalMoves (p : Position) (turn : Nat) : List Move :=
  let mask := compl64 (p.pb turn 0)
  let captures := p.pb (opponent turn) 0
  let moves := compl64 captures
  let jumps := pawnJumpRank turn
  let promos := pawnPromotionRank turn
  let officerMoves := (queenRookKnightBishop.map (fun piece =>
    (popSquares (p.pb turn piece)).map (fun frm =>
      let ab := attackboard p.rotated frm piece &&& mask
      p.emitMove turn normalM piece frm (ab &&& moves) ++
      p.emitMove turn captureM piece frm (ab &&& captures)))).flatten.flatten
  let pawnMoves := ((popSquares (p.pb turn pawnP)).map (fun frm =>
    let origin := bitMask frm
    let captureboard := pawnCaptureboard turn origin &&& mask
    let pushboard := pawnMoveboard p.rotated.rot turn origin
    let jumpboard := pawnMoveboard p.rotated.rot turn pushboard &&& jumps
    p.emitMove turn captureM pawnP frm (captureboard &&& captures &&& compl64 promos) ++
    p.emitMove turn pushM pawnP frm (pushboard &&& compl64 promos) ++
    p.emitMove turn jumpM pawnP frm jumpboard ++
    p.emitPromo turn capturePromotionM pawnP frm (captureboard &&& captures &&& promos) ++
    p.emitPromo turn promotionM pawnP frm (pushboard &&& promos) ++
    (if p.enpassant ≠ 0 then
      p.emitMove turn enPassantM pawnP frm (captureboard &&& bitMask p.enpassant)
    else []))).flatten
  let kingMoves :=
    if p.pb turn kingP ≠ 0 then
      let frm := lastPopSquare (p.pb turn kingP)
      let ab := kingAttackboard frm &&& mask
      p.emitMove turn normalM kingP frm (ab &&& moves) ++
      p.emitMove turn captureM kingP frm (ab &&& captures) ++
      (if turn = white then
        (if castlingIsAllowed p.castling whiteKingSideCastle &&
            ((bitMask 1 ||| bitMask 2) &&& p.rotated.rot) == 0 &&
            (p.pb turn rookP &&& bitMask 0) != 0 then
          p.emitMove turn kingSideCastleM kingP frm (bitMask 1)
        else []) ++
        (if castlingIsAllowed p.castling whiteQueenSideCastle &&
            ((bitMask 6 ||| bitMask 5 ||| bitMask 4) &&& p.rotated.rot) == 0 &&
            (p.pb turn rookP &&& bitMask 7) != 0 then
          p.emitMove turn queenSideCastleM kingP frm (bitMask 5)
        else [])
      else
        (if castlingIsAllowed p.castling blackKingSideCastle &&
            ((bitMask 57 ||| bitMask 58) &&& p.rotated.rot) == 0 &&
            (p.pb turn rookP &&& bitMask 56) != 0 then
          p.emitMove turn kingSideCastleM kingP frm (bitMask 57)
        else []) ++
        (if castlingIsAllowed p.castling blackQueenSideCastle &&
            ((bitMask 62 ||| bitMask 61 ||| bitMask 60) &&& p.rotated.rot) == 0 &&
            (p.pb turn rookP &&& bitMask 63) != 0 then
          p.emitMove turn queenSideCastleM kingP frm (bitMask 61)
        else []))
    else []
  officerMoves ++ pawnMoves ++ kingMoves

/-- A piece placement for building positions (board.Placement). -/
structure Placement where
  square : Nat
  color : Nat
  piece : Nat

/-- NewPosition: fold placements with a duplicate check (board.NewPosition). -/
def newPosition (pieces : List Placement) (castling ep : Nat) : Option Position :=
  pieces.foldl (fun acc pl =>
    match acc with
    | none => none
    | some p => if !p.isEmptySq pl.square then none else some (p.xorP pl.square pl.color pl.piece))
    (some { emptyPosition with castling := castling, enpassant := ep })

/-- Position.HasInsufficientMaterial (board.Position.HasInsufficientMaterial). -/
def Position.hasInsufficientMaterial (p : Position) : Bool :=
  let pc := popCount p.rotated.rot
  if pc = 2 then true
  else if pc = 3 then
    popCount (p.pb white knightP ||| p.pb black knightP |||
      p.pb white bishopP ||| p.pb black bishopP) == 1
  else if pc = 4 then
    let bishops := p.pb white bishopP ||| p.pb black bishopP
    popCount bishops == 2 && popCount (0xaaaaaaaaaaaaaaaa &&& bishops) != 1
  else false

/-- ZobristTable: keys per color, piece and square, per castling state, per
en passant square and per side to move (board.ZobristTable). The Go arrays of
pseudo-random values are functions here. -/
structure ZTable where
  pieces : Nat → Nat → Nat → Nat
  castling : Nat → Nat
  enpassant : Nat → Nat
  turnK : Nat → Nat

/-- NewZobristTable builds the table from a stream of uint64 draws, in the
exact order the Go constructor consumes its rand source: for each color, its
384 piece-square values then its turn value; then the 16 castling values;
then the en passant values of ranks 3 and 6 in square order. Entries the Go
loops never assign stay zero (board.NewZobristTable, with the rand stream
abstracted as vals). -/
def mkZobristTable (vals : Nat → Nat) : ZTable :=
  { pieces := fun c p sq =>
      if c < 2 ∧ 1 ≤ p ∧ p ≤ 6 ∧ sq < 64 then vals (c * 385 + (p - 1) * 64 + sq) else 0
    turnK := fun c => if c < 2 then vals (c * 385 + 384) else 0
    castling := fun i => if i < 16 then vals (770 + i) else 0
    enpassant := fun sq =>
      if sq < 64 ∧ rankOf sq = 2 then vals (786 + (sq - 16))
      else if sq < 64 ∧ rankOf sq = 5 then vals (794 + (sq - 40))
      else 0 }

/-- ZobristTable.Hash: xor of the keys of all placements, the castling state,
the en passant square if set, and the side to move (board.ZobristTable.Hash). -/
def ZTable.hashP (z : ZTable) (pos : Position) (turn : Nat) : Nat :=
  let pieceHash := ((List.range 64).map (fun sq =>
    let r := pos.squareAt sq
    if r.2.2 then z.pieces r.1 r.2.1 sq else 0)).foldl (fun a b => a ^^^ b) 0
  let h1 := pieceHash ^^^ z.castling pos.castling
  let h2 := if pos.enpassant ≠ 0 then h1 ^^^ z.enpassant pos.enpassant else h1
  h2 ^^^ z.turnK turn

/-- ZobristTable.Move: the incremental hash update for a legal move
(board.ZobristTable.Move). Note the new castling key line xors the key of
pos.Castling() AND m.CastlingRightsLost(), exactly as the Go source does. -/
def ZTable.moveHash (z : ZTable) (h : Nat) (pos : Position) (m : Move) : Nat :=
  let turn := (pos.squareAt m.fromSq).1
  let h1 := h ^^^ z.castling pos.castling
  let h2 := if pos.enpassant ≠ 0 then h1 ^^^ z.enpassant pos.enpassant else h1
  let h3 := h2 ^^^ z.turnK turn
  let h4 := h3 ^^^ z.pieces turn m.piece m.fromSq
  let h5 :=
    if m.type = captureM then
      h4 ^^^ z.pieces (opponent turn) m.capture m.toSq ^^^ z.pieces turn m.piece m.toSq
    else if m.type = promotionM then
      h4 ^^^ z.pieces turn m.promotion m.toSq
    else if m.type = capturePromotionM then
      h4 ^^^ z.pieces (opponent turn) m.capture m.toSq ^^^ z.pieces turn m.promotion m.toSq
    else if m.type = enPassantM then
      h4 ^^^ z.pieces turn m.piece m.toSq ^^^
        z.pieces (opponent turn) pawnP (m.enPassantCapture).1
    else if m.type = kingSideCastleM ∨ m.type = queenSideCastleM then
      let rm := m.castlingRookMove
      h4 ^^^ z.pieces turn m.piece m.toSq ^^^ z.pieces turn rookP rm.1 ^^^
        z.pieces turn rookP rm.2.1
    else
      h4 ^^^ z.pieces turn m.piece m.toSq
  let h6 := h5 ^^^ z.castling (pos.castling &&& m.castlingRightsLost)
  let h7 := h6 ^^^ z.enpassant (m.enPassantTarget).1
  h7 ^^^ z.turnK (opponent turn)

/-- Outcome constants (board.Outcome): Unknown = 0. -/
def unknownO : Nat := 0

/-- Undecided outcome. -/
def undecidedO : Nat := 1

/-- WhiteWins outcome. -/
def whiteWinsO : Nat := 2

/-- BlackWins outcome. -/
def blackWinsO : Nat := 3

/-- Draw outcome. -/
def drawO : Nat := 4

/-- Reason constants. The Go Reason type is a string; the distinct string
constants are mapped to distinct Nat codes, with 0 for the empty string. -/
def noReason : Nat := 0

/-- Checkmate reason code. -/
def checkmateR : Nat := 1

/-- Stalemate reason code. -/
def stalemateR : Nat := 2

/-- 3-fold repetition reason code. -/
def repetition3R : Nat := 3

/-- 5-fold repetition reason code. -/
def repetition5R : Nat := 4

/-- No progress reason code. -/
def noProgressR : Nat := 5

/-- Insufficient material reason code. -/
def insufficientMaterialR : Nat := 6

/-- Game result with outcome and reason (board.Result). The zero value is
Unknown with an empty reason. -/
structure Result where
  outcome : Nat := 0
  reason : Nat := 0
deriving DecidableEq

/-- History node (board board.go node): position, its zobrist hash, the
no-progress counter, and the move made from this node (zero when current). -/
structure BNode where
  pos : Position
  hash : Nat
  noprogress : Nat
  next : Move
deriving DecidableEq

/-- Go map read with 0 for missing keys (the b.repetitions map). -/
def mapGet (l : List (Nat × Nat)) (k : Nat) : Nat :=
  ((l.find? (fun p => p.1 == k)).map (fun p => p.2)).getD 0

/-- Go map write: replace the first binding of the key or append it. -/
def mapPut (l : List (Nat × Nat)) (k v : Nat) : List (Nat × Nat) :=
  if l.any (fun p => p.1 == k) then
    l.map (fun p => if p.1 == k then (k, v) else p)
  else l ++ [(k, v)]

/-- Board: repetition counts, move counters, side to move, result and the
history chain with the current node first (board.Board). The Go struct also
holds the pointer to its immutable ZobristTable; that table is passed as an
explicit argument to the operations here, and the repetitions map is an
association list so that board states compare decidably. -/
structure Board where
  repetitions : List (Nat × Nat)
  fullmoves : Int
  turn : Nat
  result : Result
  hist : List BNode
deriving DecidableEq

/-- The current history node (Go b.current). -/
def Board.current (b : Board) : BNode :=
  b.hist.headD { pos := emptyPosition, hash := 0, noprogress := 0, next := zeroMove }

/-- NewBoard (board.NewBoard): hash the position and seed the repetition
count of the current hash with 1. -/
def newBoard (zt : ZTable) (pos : Position) (turn noprogress : Nat) (fullmoves : Int) : Board :=
  let h := zt.hashP pos turn
  { repetitions := [(h, 1)]
    fullmoves := fullmoves
    turn := turn
    result := {}
    hist := [{ pos := pos, hash := h, noprogress := noprogress, next := zeroMove }] }

/-- updateNoProgress (board board.go): reset on any non-Normal move. -/
def updateNoProgress (old : Nat) (m : Move) : Nat :=
  if m.type ≠ normalM then 0 else old + 1

/-- The loop of identicalPositionCount (board.Board.identicalPositionCount):
walk the previous nodes while i is below the limit, counting nodes whose
hash, side to move and exact position match the current node. -/
def identicalGo (nHash : Nat) (nPos : Position) (turn : Nat) : Nat → Nat → Nat → List BNode → Nat
  | _, _, _, [] => 0
  | t, i, limit, tmp :: rest =>
    if i < limit then
      (if tmp.hash = nHash ∧ turn = t ∧ tmp.pos = nPos then 1 else 0) +
        identicalGo nHash nPos turn (opponent t) (i+1) limit rest
    else 0

/-- identicalPositionCount on the current node (board.Board.identicalPositionCount):
1 for the node itself plus the matches among the previous nodes. -/
def Board.identicalPositionCount (b : Board) (turn limit : Nat) : Nat :=
  1 + identicalGo b.current.hash b.current.pos turn (opponent b.turn) 1 limit b.hist.tail

/-- PushMove (board.Board.PushMove): fail on terminal results and illegal
moves without touching the board; otherwise append the node, update the
metadata and adjudicate draw conditions. -/
def Board.pushMove (b : Board) (zt : ZTable) (m : Move) : Board × Bool :=
  if b.result.reason = checkmateR ∨ b.result.reason = stalemateR then (b, false)
  else
    match b.current.pos.move m with
    | none => (b, false)
    | some next =>
      let newHash := zt.moveHash b.current.hash b.current.pos m
      let n : BNode := { pos := next, hash := newHash
                         noprogress := updateNoProgress b.current.noprogress m
                         next := zeroMove }
      let oldHead := { b.current with next := m }
      let b1 := { b with hist := n :: oldHead :: b.hist.tail }
      let b2 := { b1 with turn := opponent b1.turn }
      let reps3 := mapPut b2.repetitions newHash (mapGet b2.repetitions newHash + 1)
      let b3 := { b2 with repetitions := reps3 }
      let b4 : Board := if b3.turn = white then { b3 with fullmoves := b3.fullmoves + 1 } else b3
      let b5 : Board :=
        if mapGet b4.repetitions newHash ≥ 3 then
          let actual := b4.identicalPositionCount b4.turn b4.current.noprogress
          if actual ≥ 5 then { b4 with result := { outcome := drawO, reason := repetition5R } }
          else if actual ≥ 3 then { b4 with result := { outcome := drawO, reason := repetition3R } }
          else b4
        else b4
      let b6 : Board := if b5.current.noprogress ≥ 100 then
          { b5 with result := { outcome := drawO, reason := noProgressR } }
        else b5
      let b7 : Board :=
        if m.type = captureM ∨ ((m.type = capturePromotionM ∨ m.type = promotionM) ∧
            (m.promotion = bishopP ∨ m.promotion = knightP)) then
          if b6.current.pos.hasInsufficientMaterial then
            { b6 with result := { outcome := drawO, reason := insufficientMaterialR } }
          else b6
        else b6
      (b7, true)

/-- PopMove (board.Board.PopMove): restore the previous node, flipping the
metadata back and resetting the result to Undecided. -/
def Board.popMove (b : Board) : Move × Board × Bool :=
  match b.hist with
  | cur :: prev :: rest =>
    let b1 := { b with turn := opponent b.turn }
    let reps2 := mapPut b1.repetitions cur.hash (mapGet b1.repetitions cur.hash - 1)
    let b2 := { b1 with repetitions := reps2 }
    let b3 := { b2 with result := { outcome := undecidedO, reason := noReason } }
    let b4 : Board := if b3.turn = black then { b3 with fullmoves := b3.fullmoves - 1 } else b3
    let m := prev.next
    (m, { b4 with hist := { prev with next := zeroMove } :: rest }, true)
  | _ => (zeroMove, b, false)

/-- The loop of HasCastled (board.Board.HasCastled), with the condition
parenthesized exactly as Go parses it: and binds tighter than or. -/
def hasCastledGo (c : Nat) : Nat → List BNode → Bool
  | _, [] => false
  | t, cur :: rest =>
    if (t == c && cur.next.type == queenSideCastleM) || cur.next.type == kingSideCastleM then
      true
    else hasCastledGo c (opponent t) rest

/-- HasCastled (board.Board.HasCastled): scan backward through the history. -/
def Board.hasCastled (b : Board) (c : Nat) : Bool :=
  hasCastledGo c (opponent b.turn) b.hist.tail

/-- AdjudicateNoLegalMoves (board.Board.AdjudicateNoLegalMoves): checkmate if
the side to move is checked, else stalemate; sets and returns the result. -/
def Board.adjudicateNoLegalMoves (b : Board) : Result × Board :=
  let result : Result :=
    if b.current.pos.isChecked b.turn then
      { outcome := if b.turn = white then blackWinsO else whiteWinsO, reason := checkmateR }
    else { outcome := drawO, reason := stalemateR }
  (result, { b with result := result })

/-- Modelled from the spec: the Board.Hash accessor used by the search is not
among the sources; per the spec the board history stores the zobrist hash per
node, so it returns the current node's hash. -/
def Board.hashCur (b : Board) : Nat := b.current.hash

/-- Modelled from the spec: the Board.Ply accessor used for transposition
entries is not among the sources; per the spec it is the ply count of the
game, reconstructed here from the fullmove count and side to move. -/
def Board.ply (b : Board) : Nat :=
  (2 * (b.fullmoves - 1) + (if b.turn = black then 1 else 0)).toNat

/-- The standard initial chess position placements. -/
def initialPlacements : List Placement :=
  [⟨7, 0, 4⟩, ⟨6, 0, 3⟩, ⟨5, 0, 2⟩, ⟨4, 0, 5⟩, ⟨3, 0, 6⟩, ⟨2, 0, 2⟩, ⟨1, 0, 3⟩, ⟨0, 0, 4⟩,
   ⟨15, 0, 1⟩, ⟨14, 0, 1⟩, ⟨13, 0, 1⟩, ⟨12, 0, 1⟩, ⟨11, 0, 1⟩, ⟨10, 0, 1⟩, ⟨9, 0, 1⟩, ⟨8, 0, 1⟩,
   ⟨63, 1, 4⟩, ⟨62, 1, 3⟩, ⟨61, 1, 2⟩, ⟨60, 1, 5⟩, ⟨59, 1, 6⟩, ⟨58, 1, 2⟩, ⟨57, 1, 3⟩, ⟨56, 1, 4⟩,
   ⟨55, 1, 1⟩, ⟨54, 1, 1⟩, ⟨53, 1, 1⟩, ⟨52, 1, 1⟩, ⟨51, 1, 1⟩, ⟨50, 1, 1⟩, ⟨49, 1, 1⟩, ⟨48, 1, 1⟩]

/-- The standard initial position with full castling rights. -/
def initialPosition : Position :=
  (newPosition initialPlacements fullCastlingRights 0).getD emptyPosition

/-- The concrete zobrist value stream used for concrete runs: successive
positive values, so the construction shape (which entries are zero) matches
the Go table while every assigned entry is nonzero. -/
def testVals (n : Nat) : Nat := n + 1

/-- The concrete zobrist table for concrete runs. -/
def ztTest : ZTable := mkZobristTable testVals

/-- ScoreType constant Invalid = 0 (cmd sargon main.go ScoreType). -/
def invalidT : Nat := 0

/-- ScoreType constant Heuristic. -/
def heuristicT : Nat := 1

/-- ScoreType constant MateInX. -/
def mateInXT : Nat := 2

/-- ScoreType constant Inf, a won position. -/
def infT : Nat := 3

/-- ScoreType constant NegInf, a lost position. -/
def negInfT : Nat := 4

/-- Go int8 wrap-around. -/
def wrap8 (x : Int) : Int := (x + 128) % 256 - 128

/-- Tagged Score: type, ply to forced mate (int8, negative when being mated)
and heuristic pawns (cmd sargon main.go Score; the pkg eval copy in
part 026 is identical except that it lacks the Invalid sentinel and panics
on invalid type combinations where this one returns false). Go compares
Score structs with field-wise equality. -/
structure Score where
  stype : Nat := 0
  mate : Int := 0
  pawns : Int := 0
deriving DecidableEq

/-- The Invalid sentinel score. -/
def invalidScore : Score := { stype := invalidT }

/-- The zero heuristic score. -/
def zeroScore : Score := { stype := heuristicT }

/-- The Inf score. -/
def infScore : Score := { stype := infT }

/-- The NegInf score. -/
def negInfScore : Score := { stype := negInfT }

/-- HeuristicScore constructor. -/
def heuristicScore (pawns : Int) : Score := { stype := heuristicT, pawns := pawns }

/-- MateInXScore constructor; the parameter is an int8 in Go. -/
def mateInXScore (mate : Int) : Score := { stype := mateInXT, mate := wrap8 mate }

/-- Score.Negate (sargon main.go / eval score.go Score.Negate). -/
def Score.negate (s : Score) : Score :=
  if s.stype = heuristicT then heuristicScore (-s.pawns)
  else if s.stype = mateInXT then mateInXScore (-s.mate)
  else if s.stype = infT then negInfScore
  else if s.stype = negInfT then infScore
  else invalidScore

/-- Score.Less (sargon main.go / eval score.go Score.Less): group order
negInf, negative mates, heuristics, positive mates, inf, with the mate
comparisons written exactly as in the source. -/
def Score.less (s o : Score) : Bool :=
  if s = o ∨ s.stype = infT ∨ o.stype = negInfT then false
  else if s.stype = negInfT ∨ o.stype = infT then true
  else if s.stype = heuristicT then
    if o.stype = heuristicT then decide (s.pawns < o.pawns)
    else if o.stype = mateInXT then decide (o.mate > 0)
    else false
  else if s.stype = mateInXT then
    if o.stype = heuristicT then decide (s.mate < 0)
    else if o.stype = mateInXT then
      if s.mate < 0 ∨ o.mate < 0 then decide (s.mate < o.mate) else decide (s.mate > o.mate)
    else false
  else false

/-- IncrementMateDistance (sargon main.go; IncrementMateInX in eval
score.go is the same function): one more ply away from mate. -/
def incrementMateDistance (s : Score) : Score :=
  if s.stype = infT then mateInXScore 1
  else if s.stype = negInfT then mateInXScore (-1)
  else if s.stype = mateInXT then
    if s.mate < 0 then mateInXScore (s.mate - 1) else mateInXScore (s.mate + 1)
  else s

/-- Score Max (eval score.go Max). -/
def Score.maxS (a b : Score) : Score := if a.less b then b else a

/-- Score Min (eval score.go Min). -/
def Score.minS (a b : Score) : Score := if a.less b then a else b

/-- Bound constant Exact (search transposition.go ExactBound). -/
def exactBound : Nat := 0

/-- Bound constant Lower. -/
def lowerBound : Nat := 1

/-- Transposition node metadata (search transposition.go metadata):
bound, best move fields, and uint16 ply and depth. -/
structure TTMetadata where
  bound : Nat
  fromSq : Nat
  toSq : Nat
  promotion : Nat
  ply : Nat
  depth : Nat
deriving DecidableEq

/-- Transposition node: full hash, score and metadata (search
transposition.go node). -/
structure TTNode where
  hash : Nat
  score : Score
  md : TTMetadata
deriving DecidableEq

/-- The transposition table: slot array as a function from masked keys, the
index mask, and the used counter (search transposition.go table). -/
structure TTable where
  mask : Nat
  slots : Nat → Option TTNode
  used : Nat

/-- The fresh node Write constructs (search transposition.go Write), with
the Go uint16 conversions of ply and depth. -/
def mkTTNode (hash bound ply depth : Nat) (score : Score) (move : Move) : TTNode :=
  { hash := hash, score := score
    md := { bound := bound, fromSq := move.fromSq, toSq := move.toSq
            promotion := move.promotion, ply := ply % 65536, depth := depth % 65536 } }

/-- Replacement value of a slot (search transposition.go val): ply plus
depth shifted, in uint16 arithmetic; a null slot has value 0. -/
def ttVal (n : Option TTNode) : Nat :=
  match n with
  | none => 0
  | some nd => (nd.md.ply + (nd.md.depth <<< 1)) % 65536

/-- Read (search transposition.go table.Read): full-hash check under the
masked key; returns (bound, depth, score, bestmove, ok). -/
def TTable.read (t : TTable) (hash : Nat) : Nat × Nat × Score × Move × Bool :=
  let key := hash &&& t.mask
  match t.slots key with
  | some ptr =>
    if hash = ptr.hash then
      (ptr.md.bound, ptr.md.depth, ptr.score,
        { fromSq := ptr.md.fromSq, toSq := ptr.md.toSq, promotion := ptr.md.promotion }, true)
    else (0, 0, {}, {}, false)
  | none => (0, 0, {}, {}, false)

/-- Write (search transposition.go table.Write): keep the existing node when
it has strictly higher value, else install the fresh node; the CAS loop of
the Go source always succeeds in this sequential embedding. Returns the new
table and whether the fresh entry was installed. -/
def TTable.write (t : TTable) (hash bound ply depth : Nat) (score : Score) (move : Move) :
    TTable × Bool :=
  let key := hash &&& t.mask
  let fresh := mkTTNode hash bound ply depth score move
  let ptr := t.slots key
  if ttVal ptr > ttVal (some fresh) then (t, false)
  else ({ t with
    slots := fun k => if k = key then some fresh else t.slots k,
    used := if ptr = none then t.used + 1 else t.used }, true)

/-- Move priority queue element (search movelist.go elm). The Priority type
is int16 in Go; it is Int here. -/
structure Elm where
  m : Move
  val : Int
deriving DecidableEq

instance : Inhabited Elm := ⟨⟨zeroMove, 0⟩⟩

/-- List indexing with the Inhabited default, the Go slice access. -/
def hget (l : List Elm) (i : Nat) : Elm := l.getD i default

/-- moveHeap.Less (search movelist.go): index i sorts before j when its
priority is strictly greater. -/
def hless (l : List Elm) (i j : Nat) : Bool := decide ((hget l i).val > (hget l j).val)

/-- moveHeap.Swap (search movelist.go). -/
def hswap (l : List Elm) (i j : Nat) : List Elm :=
  (l.set i (hget l j)).set j (hget l i)

/-- The sift-down loop of package container/heap (down): pick the greater
child j of i, stop unless it sorts before i, else swap and continue from j.
The Go loop also breaks on int overflow of 2*i+1, which cannot occur on Nat.
The loop index strictly increases below n, so a fuel of n + 1 never runs out;
fuel keeps the recursion structural so that it evaluates in the kernel. -/
def downGo (n : Nat) : Nat → List Elm → Nat → List Elm
  | 0, l, _ => l
  | fuel+1, l, i =>
    let j1 := 2 * i + 1
    if j1 < n then
      let j := if j1 + 1 < n ∧ hless l (j1 + 1) j1 then j1 + 1 else j1
      if hless l j i then downGo n fuel (hswap l i j) j
      else l
    else l

/-- container/heap down with adequate fuel. -/
def downH (l : List Elm) (i n : Nat) : List Elm := downGo n (n + 1) l i

/-- The loop of container/heap Init: down at indices n/2 - 1 down to 0. -/
def initHeapGo (n : Nat) : Nat → List Elm → List Elm
  | 0, l => l
  | k+1, l => initHeapGo n k (downH l k n)

/-- container/heap Init on a whole slice. -/
def heapInit (l : List Elm) : List Elm := initHeapGo l.length (l.length / 2) l

/-- container/heap Pop followed by moveHeap.Pop: swap the root to the end,
sift the new root down over the shortened range, then remove and return the
last element. -/
def heapPop (l : List Elm) : Elm × List Elm :=
  let n := l.length - 1
  let l1 := hswap l 0 n
  let l2 := downH l1 0 n
  ((l2.getLastD default), l2.dropLast)

/-- MoveList (search movelist.go MoveList): heap-ordered move queue. -/
structure MoveList where
  h : List Elm

/-- NewMoveList (search movelist.go NewMoveList): pair each move with its
priority and heapify. -/
def newMoveList (moves : List Move) (fn : Move → Int) : MoveList :=
  { h := heapInit (moves.map (fun m => { m := m, val := fn m })) }

/-- MoveList.Next (search movelist.go Next): pop the highest-priority move;
returns (move, ok, rest). -/
def MoveList.next (ml : MoveList) : Move × Bool × MoveList :=
  if ml.h.length = 0 then (zeroMove, false, ml)
  else
    let r := heapPop ml.h
    (r.1.m, true, { h := r.2 })

/-- Drain a MoveList by repeated Next; the fuel equals the heap size. -/
def drainGo : Nat → MoveList → List Move
  | 0, _ => []
  | fuel+1, ml =>
    let r := ml.next
    if r.2.1 then r.1 :: drainGo fuel r.2.2 else []

/-- All moves of a MoveList in Next order. -/
def MoveList.drain (ml : MoveList) : List Move := drainGo ml.h.length ml

/-- The element-level drain used to reason about drainGo. -/
def drainE : Nat → List Elm → List Elm
  | 0, _ => []
  | fuel+1, l => if l.length = 0 then [] else (heapPop l).1 :: drainE fuel (heapPop l).2

/-- NominalValue in pawns (eval eval.go NominalValue); Pawns is float32 in
Go and Int here, exact on these integer values. -/
def nominalValue (p : Nat) : Int :=
  if p = pawnP then 1
  else if p = bishopP ∨ p = knightP then 3
  else if p = rookP then 5
  else if p = queenP then 9
  else if p = kingP then 100
  else 0

/-- NominalValueGain of a move (eval eval.go NominalValueGain). -/
def nominalValueGain (m : Move) : Int :=
  if m.type = capturePromotionM then
    nominalValue m.capture + nominalValue m.promotion - nominalValue pawnP
  else if m.type = promotionM then nominalValue m.promotion - nominalValue pawnP
  else if m.type = captureM then nominalValue m.capture
  else if m.type = enPassantM then nominalValue pawnP
  else 0

/-- MVVLVA priority (search movelist.go MVVLVA). -/
def mvvlva (m : Move) : Int :=
  let p := 100 * nominalValueGain m
  if p > 0 then p - nominalValue m.piece else 0

/-- First(best).MVVLVA (search movelist.go First): force a given move first. -/
def firstMVVLVA (f m : Move) : Int :=
  if m.equals f then 1000 else mvvlva m

/-- The mutable state of runAlphaBeta (part 001 runAlphaBeta): transposition
table, board, node counter, remaining ponder line, and the quit signal. -/
structure SearchState where
  tt : TTable
  zt : ZTable
  b : Board
  nodes : Nat
  ponder : List Move
  quitC : Bool

/-- first(pv) (part 001 first). -/
def firstPV (pv : List Move) : Move := pv.headD zeroMove

/-- The move loop of runAlphaBeta.search (part 001): next move from the
queue; push or skip; if picked (and matching the ponder move when in ponder
mode) recurse with the negated window and maybe improve alpha and the pv;
pop; record that a legal move exists; cut off on alpha reaching beta. The
fuel is the heap size, which Next decreases. -/
def abLoop (pick : Move → Board → Bool)
    (rec : SearchState → Score → Score → SearchState × Score × List Move)
    (ponderOnly : Bool) (ponderMv : Move) :
    Nat → MoveList → SearchState → Score → Score → List Move → Bool → Nat →
      SearchState × Score × List Move × Bool × Nat
  | 0, _, st, alpha, _, pv, hasLegal, bound => (st, alpha, pv, hasLegal, bound)
  | fuel+1, moves, st, alpha, beta, pv, hasLegal, bound =>
    let r := moves.next
    if !r.2.1 then (st, alpha, pv, hasLegal, bound)
    else
      let move := r.1
      let ml := r.2.2
      let pm := st.b.pushMove st.zt move
      if !pm.2 then abLoop pick rec ponderOnly ponderMv fuel ml st alpha beta pv hasLegal bound
      else
        let st1 := { st with b := pm.1 }
        let stepRes : SearchState × Score × List Move :=
          if pick move st1.b && (!ponderOnly || ponderMv.equals move) then
            let rr := rec st1 beta.negate alpha.negate
            let score := (incrementMateDistance rr.2.1).negate
            if alpha.less score then (rr.1, score, move :: rr.2.2)
            else (rr.1, alpha, pv)
          else (st1, alpha, pv)
        let st2 := stepRes.1
        let alpha2 := stepRes.2.1
        let pv2 := stepRes.2.2
        let popped := st2.b.popMove
        let st3 := { st2 with b := popped.2.1 }
        if alpha2 == beta || beta.less alpha2 then (st3, alpha2, pv2, true, lowerBound)
        else abLoop pick rec ponderOnly ponderMv fuel ml st3 alpha2 beta pv2 true bound

/-- The transposition probe of runAlphaBeta.search (part 001): when the table
entry is valid and deep enough, negate the score on opposite-parity depths,
and cut off when the bound is Exact or the entry is a same-parity lower bound
reaching beta. -/
def ttProbe (rd : Nat × Nat × Score × Move × Bool) (depth : Nat) (beta : Score) :
    Option Score :=
  if rd.2.2.2.2 then
    let bnd := rd.1
    let d := rd.2.1
    if depth ≤ d then
      let isOpp : Bool := (d - depth) % 2 != 0
      let score := if isOpp then (rd.2.2.1).negate else rd.2.2.1
      if (bnd == exactBound || !isOpp) && (beta == score || beta.less score) then
        some score
      else none
    else none
  else none

/-- The depth-zero leaf of runAlphaBeta.search (part 001): quiescence
evaluation and an Exact write. -/
def searchABzero (qeval : TTable → Board → Score → Score → Nat × Score)
    (st : SearchState) (alpha beta : Score) : SearchState × Score × List Move :=
  let qr := qeval st.tt st.b alpha beta
  let st1 := { st with nodes := st.nodes + qr.1 }
  let wr := st1.tt.write st1.b.hashCur exactBound st1.b.ply 0 qr.2 zeroMove
  ({ st1 with tt := wr.1 }, qr.2, [])

/-- The recursive branch of runAlphaBeta.search (part 001): the move loop
over the priority queue, then checkmate or stalemate adjudication when no
legal move exists, or a transposition write of the window result. -/
def searchABdeep (pick : Move → Board → Bool)
    (recur : SearchState → Score → Score → SearchState × Score × List Move)
    (dm1 : Nat) (st : SearchState) (alpha beta : Score) (best : Move) :
    SearchState × Score × List Move :=
  let st1 := { st with nodes := st.nodes + 1 }
  let pd := st1.ponder
  let ponderOnly : Bool := decide (pd ≠ [])
  let ponderMv := pd.headD zeroMove
  let st2 := if pd ≠ [] then { st1 with ponder := pd.tail } else st1
  let moves := newMoveList (st2.b.current.pos.pseudoLegalMoves st2.b.turn)
    (firstMVVLVA best)
  let lr := abLoop pick recur ponderOnly ponderMv
    moves.h.length moves st2 alpha beta [] false exactBound
  let st3 := lr.1
  let alpha2 := lr.2.1
  let pv := lr.2.2.1
  let hasLegal := lr.2.2.2.1
  let bnd := lr.2.2.2.2
  if !hasLegal then
    let adj := st3.b.adjudicateNoLegalMoves
    let st4 := { st3 with b := adj.2 }
    if adj.1.reason = checkmateR then (st4, negInfScore, [])
    else (st4, zeroScore, [])
  else
    let wr := st3.tt.write st3.b.hashCur bnd st3.b.ply (dm1+1) alpha2 (firstPV pv)
    ({ st3 with tt := wr.1 }, alpha2, pv)

/-- runAlphaBeta.search (part 001): cancelled searches return Invalid; draws
return zero; then the transposition probe with its possible cutoff; at depth
zero the quiescence leaf; otherwise the recursive branch. The quiescence
search of the configuration is the qeval parameter. -/
def searchAB (pick : Move → Board → Bool)
    (qeval : TTable → Board → Score → Score → Nat × Score) :
    Nat → SearchState → Score → Score → SearchState × Score × List Move
  | depth, st, alpha, beta =>
    if st.quitC then (st, invalidScore, [])
    else if st.b.result.outcome = drawO then (st, zeroScore, [])
    else
      let rd := st.tt.read st.b.hashCur
      let best := if rd.2.2.2.2 then rd.2.2.2.1 else zeroMove
      match ttProbe rd depth beta with
      | some score => (st, score, [])
      | none =>
        match depth with
        | 0 => searchABzero qeval st alpha beta
        | dm1+1 => searchABdeep pick (searchAB pick qeval dm1) dm1 st alpha beta best

/-- Go int64 wrap-around for Duration arithmetic. -/
def wrap64I (x : Int) : Int := (x + 2 ^ 63) % 2 ^ 64 - 2 ^ 63

/-- TimeControl: remaining time per color in Duration nanoseconds, and the
number of moves to the next control, 0 meaning rest of game (searchctl
part 010 TimeControl). -/
structure TimeControl where
  white : Int
  black : Int
  moves : Int

/-- TimeControl.Limits (searchctl part 010): the side's remainder divided by
twice the estimated remaining moves, and three times that. Go Duration
division truncates toward zero; arithmetic is int64 with wrap-around. -/
def tcLimits (t : TimeControl) (c : Nat) : Int × Int :=
  let remainder := if c = black then t.black else t.white
  let moves : Int := if t.moves > 0 then wrap64I (t.moves + 1) else 40
  let soft := Int.tdiv remainder (wrap64I (2 * moves))
  let hard := wrap64I (3 * soft)
  (soft, hard)

/-- The formula of claim C9, written from the claim text: soft = T / (2 M)
and hard = 3 soft with M = 40 when the Moves field is 0 and M = Moves + 1
otherwise, with exact integer division. -/
def limitsClaimC9 (t : TimeControl) (c : Nat) : Int × Int :=
  let remainder := if c = black then t.black else t.white
  let m : Int := if t.moves = 0 then 40 else t.moves + 1
  let soft := Int.tdiv remainder (2 * m)
  (soft, 3 * soft)

/-- Push a move sequence, stopping at the first failure (the engine push
path: each move is pushed with Board.PushMove). -/
def pushAll (zt : ZTable) : Board → List Move → Board × Bool
  | b, [] => (b, true)
  | b, m :: rest =>
    let r := b.pushMove zt m
    if r.2 then pushAll zt r.1 rest else (r.1, false)

/-- The knight move g1f3 as generated. -/
def mvG1f3 : Move := { type := normalM, fromSq := 1, toSq := 18, piece := knightP }

/-- The knight move b8c6 as generated. -/
def mvB8c6 : Move := { type := normalM, fromSq := 62, toSq := 45, piece := knightP }

/-- The knight move f3g1 as generated. -/
def mvF3g1 : Move := { type := normalM, fromSq := 18, toSq := 1, piece := knightP }

/-- The knight move c6b8 as generated. -/
def mvC6b8 : Move := { type := normalM, fromSq := 45, toSq := 62, piece := knightP }

/-- The pawn jump e2e4 as generated. -/
def mvE2e4 : Move := { type := jumpM, fromSq := 11, toSq := 27, piece := pawnP }

/-- The pawn jump e7e5 as generated. -/
def mvE7e5 : Move := { type := jumpM, fromSq := 51, toSq := 35, piece := pawnP }

/-- The repetition move sequence of claim C3: e2e4 e7e5 g1f3 b8c6 f3g1 c6b8
g1f3 b8c6 f3g1 c6b8, as the typed moves that PseudoLegalMoves generates. -/
def seqC3 : List Move :=
  [mvE2e4, mvE7e5, mvG1f3, mvB8c6, mvF3g1, mvC6b8, mvG1f3, mvB8c6, mvF3g1, mvC6b8]

/-- The initial board over the concrete zobrist table, as the engine builds
it from the starting position. -/
def boardStart : Board := newBoard ztTest initialPosition white 0 1

/-- Board state after the first 0 pushes of the C3 sequence, computed by
the embedding itself and verified by the step lemmas below. -/
def c3b0 : Board :=
  { repetitions := [(515, 1)],
    fullmoves := 1,
    turn := 0,
    result := { outcome := 0, reason := 0 },
    hist := [{ pos := { pieces := [[65535, 65280, 36, 66, 129, 16, 8],
                                   [18446462598732840960, 71776119061217280, 2594073385365405696, 4755801206503243776,
                                    9295429630892703744, 1152921504606846976, 576460752303423488]],
                        rotated := { rot := 18446462598732906495,
                                     rot90 := 14106333703424951235,
                                     rot45L := 18100395833141857503,
                                     rot45R := 18100395833141857503 },
                        castling := 15,
                        enpassant := 0 },
               hash := 515,
               noprogress := 0,
               next := { type := 0, fromSq := 0, toSq := 0, piece := 0, promotion := 0, capture := 0 } }] }

/-- Board state after the first 1 pushes of the C3 sequence, computed by
the embedding itself and verified by the step lemmas below. -/
def c3b1 : Board :=
  { repetitions := [(515, 1), (919, 1)],
    fullmoves := 1,
    turn := 1,
    result := { outcome := 0, reason := 0 },
    hist := [{ pos := { pieces := [[134281215, 134280960, 36, 66, 129, 16, 8],
                                   [18446462598732840960, 71776119061217280, 2594073385365405696, 4755801206503243776,
                                    9295429630892703744, 1152921504606846976, 576460752303423488]],
                        rotated := { rot := 18446462598867122175,
                                     rot90 := 14106333703525614531,
                                     rot45L := 18100395835289275615,
                                     rot45R := 18100395833158632671 },
                        castling := 15,
                        enpassant := 19 },
               hash := 919,
               noprogress := 0,
               next := { type := 0, fromSq := 0, toSq := 0, piece := 0, promotion := 0, capture := 0 } },
             { pos := { pieces := [[65535, 65280, 36, 66, 129, 16, 8],
                                   [18446462598732840960, 71776119061217280, 2594073385365405696, 4755801206503243776,
                                    9295429630892703744, 1152921504606846976, 576460752303423488]],
                        rotated := { rot := 18446462598732906495,
                                     rot90 := 14106333703424951235,
                                     rot45L := 18100395833141857503,
                                     rot45R := 18100395833141857503 },
                        castling := 15,
                        enpassant := 0 },
               hash := 515,
               noprogress := 0,
               next := { type := 3, fromSq := 11, toSq := 27, piece := 1, promotion := 0, capture := 0 } }] }

/-- Board state after the first 2 pushes of the C3 sequence, computed by
the embedding itself and verified by the step lemmas below. -/
def c3b2 : Board :=
  { repetitions := [(515, 1), (919, 1), (285, 1)],
    fullmoves := 2,
    turn := 0,
    result := { outcome := 0, reason := 0 },
    hist := [{ pos := { pieces := [[134281215, 134280960, 36, 66, 129, 16, 8],
                                   [18444210833278894080, 69524353607270400, 2594073385365405696, 4755801206503243776,
                                    9295429630892703744, 1152921504606846976, 576460752303423488]],
                        rotated := { rot := 18444210833413175295,
                                     rot90 := 14106333702720308163,
                                     rot45L := 18095892785417719007,
                                     rot45R := 18100255099965244639 },
                        castling := 15,
                        enpassant := 43 },
               hash := 285,
               noprogress := 0,
               next := { type := 0, fromSq := 0, toSq := 0, piece := 0, promotion := 0, capture := 0 } },
             { pos := { pieces := [[134281215, 134280960, 36, 66, 129, 16, 8],
                                   [18446462598732840960, 71776119061217280, 2594073385365405696, 4755801206503243776,
                                    9295429630892703744, 1152921504606846976, 576460752303423488]],
                        rotated := { rot := 18446462598867122175,
                                     rot90 := 14106333703525614531,
                                     rot45L := 18100395835289275615,
                                     rot45R := 18100395833158632671 },
                        castling := 15,
                        enpassant := 19 },
               hash := 919,
               noprogress := 0,
               next := { type := 3, fromSq := 51, toSq := 35, piece := 1, promotion := 0, capture := 0 } },
             { pos := { pieces := [[65535, 65280, 36, 66, 129, 16, 8],
                                   [18446462598732840960, 71776119061217280, 2594073385365405696, 4755801206503243776,
                                    9295429630892703744, 1152921504606846976, 576460752303423488]],
                        rotated := { rot := 18446462598732906495,
                                     rot90 := 14106333703424951235,
                                     rot45L := 18100395833141857503,
                                     rot45R := 18100395833141857503 },
                        castling := 15,
                        enpassant := 0 },
               hash := 515,
               noprogress := 0,
               next := { type := 3, fromSq := 11, toSq := 27, piece := 1, promotion := 0, capture := 0 } }] }

/-- Board state after the first 3 pushes of the C3 sequence, computed by
the embedding itself and verified by the step lemmas below. -/
def c3b3 : Board :=
  { repetitions := [(515, 1), (919, 1), (285, 1), (128, 1)],
    fullmoves := 2,
    turn := 1,
    result := { outcome := 0, reason := 0 },
    hist := [{ pos := { pieces := [[134543357, 134280960, 36, 262208, 129, 16, 8],
                                   [18444210833278894080, 69524353607270400, 2594073385365405696, 4755801206503243776,
                                    9295429630892703744, 1152921504606846976, 576460752303423488]],
                        rotated := { rot := 18444210833413437437,
                                     rot90 := 14106333702720570051,
                                     rot45L := 18095892786489363679,
                                     rot45R := 18100255099965248733 },
                        castling := 15,
                        enpassant := 0 },
               hash := 128,
               noprogress := 1,
               next := { type := 0, fromSq := 0, toSq := 0, piece := 0, promotion := 0, capture := 0 } },
             { pos := { pieces := [[134281215, 134280960, 36, 66, 129, 16, 8],
                                   [18444210833278894080, 69524353607270400, 2594073385365405696, 4755801206503243776,
                                    9295429630892703744, 1152921504606846976, 576460752303423488]],
                        rotated := { rot := 18444210833413175295,
                                     rot90 := 14106333702720308163,
                                     rot45L := 18095892785417719007,
                                     rot45R := 18100255099965244639 },
                        castling := 15,
                        enpassant := 43 },
               hash := 285,
               noprogress := 0,
               next := { type := 1, fromSq := 1, toSq := 18, piece := 3, promotion := 0, capture := 0 } },
             { pos := { pieces := [[134281215, 134280960, 36, 66, 129, 16, 8],
                                   [18446462598732840960, 71776119061217280, 2594073385365405696, 4755801206503243776,
                                    9295429630892703744, 1152921504606846976, 576460752303423488]],
                        rotated := { rot := 18446462598867122175,
                                     rot90 := 14106333703525614531,
                                     rot45L := 18100395835289275615,
                                     rot45R := 18100395833158632671 },
                        castling := 15,
                        enpassant := 19 },
               hash := 919,
               noprogress := 0,
               next := { type := 3, fromSq := 51, toSq := 35, piece := 1, promotion := 0, capture := 0 } },
             { pos := { pieces := [[65535, 65280, 36, 66, 129, 16, 8],
                                   [18446462598732840960, 71776119061217280, 2594073385365405696, 4755801206503243776,
                                    9295429630892703744, 1152921504606846976, 576460752303423488]],
                        rotated := { rot := 18446462598732906495,
                                     rot90 := 14106333703424951235,
                                     rot45L := 18100395833141857503,
                                     rot45R := 18100395833141857503 },
                        castling := 15,
                        enpassant := 0 },
               hash := 515,
               noprogress := 0,
               next := { type := 3, fromSq := 11, toSq := 27, piece := 1, promotion := 0, capture := 0 } }] }

/-- Board state after the first 4 pushes of the C3 sequence, computed by
the embedding itself and verified by the step lemmas below. -/
def c3b4 : Board :=
  { repetitions := [(515, 1), (919, 1), (285, 1), (128, 1), (637, 1)],
    fullmoves := 3,
    turn := 0,
    result := { outcome := 0, reason := 0 },
    hist := [{ pos := { pieces := [[134543357, 134280960, 36, 262208, 129, 16, 8],
                                   [13832559999223595008, 69524353607270400, 2594073385365405696, 144150372447944704,
                                    9295429630892703744, 1152921504606846976, 576460752303423488]],
                        rotated := { rot := 13832559999358138365,
                                     rot90 := 14070340090073694915,
                                     rot45L := 18095888397032787167,
                                     rot45R := 13490820881351546077 },
                        castling := 15,
                        enpassant := 0 },
               hash := 637,
               noprogress := 2,
               next := { type := 0, fromSq := 0, toSq := 0, piece := 0, promotion := 0, capture := 0 } },
             { pos := { pieces := [[134543357, 134280960, 36, 262208, 129, 16, 8],
                                   [18444210833278894080, 69524353607270400, 2594073385365405696, 4755801206503243776,
                                    9295429630892703744, 1152921504606846976, 576460752303423488]],
                        rotated := { rot := 18444210833413437437,
                                     rot90 := 14106333702720570051,
                                     rot45L := 18095892786489363679,
                                     rot45R := 18100255099965248733 },
                        castling := 15,
                        enpassant := 0 },
               hash := 128,
               noprogress := 1,
               next := { type := 1, fromSq := 62, toSq := 45, piece := 3, promotion := 0, capture := 0 } },
             { pos := { pieces := [[134281215, 134280960, 36, 66, 129, 16, 8],
                                   [18444210833278894080, 69524353607270400, 2594073385365405696, 4755801206503243776,
                                    9295429630892703744, 1152921504606846976, 576460752303423488]],
                        rotated := { rot := 18444210833413175295,
                                     rot90 := 14106333702720308163,
                                     rot45L := 18095892785417719007,
                                     rot45R := 18100255099965244639 },
                        castling := 15,
                        enpassant := 43 },
               hash := 285,
               noprogress := 0,
               next := { type := 1, fromSq := 1, toSq := 18, piece := 3, promotion := 0, capture := 0 } },
             { pos := { pieces := [[134281215, 134280960, 36, 66, 129, 16, 8],
                                   [18446462598732840960, 71776119061217280, 2594073385365405696, 4755801206503243776,
                                    9295429630892703744, 1152921504606846976, 576460752303423488]],
                        rotated := { rot := 18446462598867122175,
                                     rot90 := 14106333703525614531,
                                     rot45L := 18100395835289275615,
                                     rot45R := 18100395833158632671 },
                        castling := 15,
                        enpassant := 19 },
               hash := 919,
               noprogress := 0,
               next := { type := 3, fromSq := 51, toSq := 35, piece := 1, promotion := 0, capture := 0 } },
             { pos := { pieces := [[65535, 65280, 36, 66, 129, 16, 8],
                                   [18446462598732840960, 71776119061217280, 2594073385365405696, 4755801206503243776,
                                    9295429630892703744, 1152921504606846976, 576460752303423488]],
                        rotated := { rot := 18446462598732906495,
                                     rot90 := 14106333703424951235,
                                     rot45L := 18100395833141857503,
                                     rot45R := 18100395833141857503 },
                        castling := 15,
                        enpassant := 0 },
               hash := 515,
               noprogress := 0,
               next := { type := 3, fromSq := 11, toSq := 27, piece := 1, promotion := 0, capture := 0 } }] }

/-- Board state after the first 5 pushes of the C3 sequence, computed by
the embedding itself and verified by the step lemmas below. -/
def c3b5 : Board :=
  { repetitions := [(515, 1), (919, 1), (285, 1), (128, 1), (637, 1), (254, 1)],
    fullmoves := 3,
    turn := 1,
    result := { outcome := 0, reason := 0 },
    hist := [{ pos := { pieces := [[134281215, 134280960, 36, 66, 129, 16, 8],
                                   [13832559999223595008, 69524353607270400, 2594073385365405696, 144150372447944704,
                                    9295429630892703744, 1152921504606846976, 576460752303423488]],
                        rotated := { rot := 13832559999357876223,
                                     rot90 := 14070340090073433027,
                                     rot45L := 18095888395961142495,
                                     rot45R := 13490820881351541983 },
                        castling := 15,
                        enpassant := 0 },
               hash := 254,
               noprogress := 3,
               next := { type := 0, fromSq := 0, toSq := 0, piece := 0, promotion := 0, capture := 0 } },
             { pos := { pieces := [[134543357, 134280960, 36, 262208, 129, 16, 8],
                                   [13832559999223595008, 69524353607270400, 2594073385365405696, 144150372447944704,
                                    9295429630892703744, 1152921504606846976, 576460752303423488]],
                        rotated := { rot := 13832559999358138365,
                                     rot90 := 14070340090073694915,
                                     rot45L := 18095888397032787167,
                                     rot45R := 13490820881351546077 },
                        castling := 15,
                        enpassant := 0 },
               hash := 637,
               noprogress := 2,
               next := { type := 1, fromSq := 18, toSq := 1, piece := 3, promotion := 0, capture := 0 } },
             { pos := { pieces := [[134543357, 134280960, 36, 262208, 129, 16, 8],
                                   [18444210833278894080, 69524353607270400, 2594073385365405696, 4755801206503243776,
                                    9295429630892703744, 1152921504606846976, 576460752303423488]],
                        rotated := { rot := 18444210833413437437,
                                     rot90 := 14106333702720570051,
                                     rot45L := 18095892786489363679,
                                     rot45R := 18100255099965248733 },
                        castling := 15,
                        enpassant := 0 },
               hash := 128,
               noprogress := 1,
               next := { type := 1, fromSq := 62, toSq := 45, piece := 3, promotion := 0, capture := 0 } },
             { pos := { pieces := [[134281215, 134280960, 36, 66, 129, 16, 8],
                                   [18444210833278894080, 69524353607270400, 2594073385365405696, 4755801206503243776,
                                    9295429630892703744, 1152921504606846976, 576460752303423488]],
                        rotated := { rot := 18444210833413175295,
                                     rot90 := 14106333702720308163,
                                     rot45L := 18095892785417719007,
                                     rot45R := 18100255099965244639 },
                        castling := 15,
                        enpassant := 43 },
               hash := 285,
               noprogress := 0,
               next := { type := 1, fromSq := 1, toSq := 18, piece := 3, promotion := 0, capture := 0 } },
             { pos := { pieces := [[134281215, 134280960, 36, 66, 129, 16, 8],
                                   [18446462598732840960, 71776119061217280, 2594073385365405696, 4755801206503243776,
                                    9295429630892703744, 1152921504606846976, 576460752303423488]],
                        rotated := { rot := 18446462598867122175,
                                     rot90 := 14106333703525614531,
                                     rot45L := 18100395835289275615,
                                     rot45R := 18100395833158632671 },
                        castling := 15,
                        enpassant := 19 },
               hash := 919,
               noprogress := 0,
               next := { type := 3, fromSq := 51, toSq := 35, piece := 1, promotion := 0, capture := 0 } },
             { pos := { pieces := [[65535, 65280, 36, 66, 129, 16, 8],
                                   [18446462598732840960, 71776119061217280, 2594073385365405696, 4755801206503243776,
                                    9295429630892703744, 1152921504606846976, 576460752303423488]],
                        rotated := { rot := 18446462598732906495,
                                     rot90 := 14106333703424951235,
                                     rot45L := 18100395833141857503,
                                     rot45R := 18100395833141857503 },
                        castling := 15,
                        enpassant := 0 },
               hash := 515,
               noprogress := 0,
               next := { type := 3, fromSq := 11, toSq := 27, piece := 1, promotion := 0, capture := 0 } }] }

/-- Board state after the first 6 pushes of the C3 sequence, computed by
the embedding itself and verified by the step lemmas below. -/
def c3b6 : Board :=
  { repetitions := [(515, 2), (919, 1), (285, 1), (128, 1), (637, 1), (254, 1)],
    fullmoves := 4,
    turn := 0,
    result := { outcome := 0, reason := 0 },
    hist := [{ pos := { pieces := [[134281215, 134280960, 36, 66, 129, 16, 8],
                                   [18444210833278894080, 69524353607270400, 2594073385365405696, 4755801206503243776,
                                    9295429630892703744, 1152921504606846976, 576460752303423488]],
                        rotated := { rot := 18444210833413175295,
                                     rot90 := 14106333702720308163,
                                     rot45L := 18095892785417719007,
                                     rot45R := 18100255099965244639 },
                        castling := 15,
                        enpassant := 0 },
               hash := 515,
               noprogress := 4,
               next := { type := 0, fromSq := 0, toSq := 0, piece := 0, promotion := 0, capture := 0 } },
             { pos := { pieces := [[134281215, 134280960, 36, 66, 129, 16, 8],
                                   [13832559999223595008, 69524353607270400, 2594073385365405696, 144150372447944704,
                                    9295429630892703744, 1152921504606846976, 576460752303423488]],
                        rotated := { rot := 13832559999357876223,
                                     rot90 := 14070340090073433027,
                                     rot45L := 18095888395961142495,
                                     rot45R := 13490820881351541983 },
                        castling := 15,
                        enpassant := 0 },
               hash := 254,
               noprogress := 3,
               next := { type := 1, fromSq := 45, toSq := 62, piece := 3, promotion := 0, capture := 0 } },
             { pos := { pieces := [[134543357, 134280960, 36, 262208, 129, 16, 8],
                                   [13832559999223595008, 69524353607270400, 2594073385365405696, 144150372447944704,
                                    9295429630892703744, 1152921504606846976, 576460752303423488]],
                        rotated := { rot := 13832559999358138365,
                                     rot90 := 14070340090073694915,
                                     rot45L := 18095888397032787167,
                                     rot45R := 13490820881351546077 },
                        castling := 15,
                        enpassant := 0 },
               hash := 637,
               noprogress := 2,
               next := { type := 1, fromSq := 18, toSq := 1, piece := 3, promotion := 0, capture := 0 } },
             { pos := { pieces := [[134543357, 134280960, 36, 262208, 129, 16, 8],
                                   [18444210833278894080, 69524353607270400, 2594073385365405696, 4755801206503243776,
                                    9295429630892703744, 1152921504606846976, 576460752303423488]],
                        rotated := { rot := 18444210833413437437,
                                     rot90 := 14106333702720570051,
                                     rot45L := 18095892786489363679,
                                     rot45R := 18100255099965248733 },
                        castling := 15,
                        enpassant := 0 },
               hash := 128,
               noprogress := 1,
               next := { type := 1, fromSq := 62, toSq := 45, piece := 3, promotion := 0, capture := 0 } },
             { pos := { pieces := [[134281215, 134280960, 36, 66, 129, 16, 8],
                                   [18444210833278894080, 69524353607270400, 2594073385365405696, 4755801206503243776,
                                    9295429630892703744, 1152921504606846976, 576460752303423488]],
                        rotated := { rot := 18444210833413175295,
                                     rot90 := 14106333702720308163,
                                     rot45L := 18095892785417719007,
                                     rot45R := 18100255099965244639 },
                        castling := 15,
                        enpassant := 43 },
               hash := 285,
               noprogress := 0,
               next := { type := 1, fromSq := 1, toSq := 18, piece := 3, promotion := 0, capture := 0 } },
             { pos := { pieces := [[134281215, 134280960, 36, 66, 129, 16, 8],
                                   [18446462598732840960, 71776119061217280, 2594073385365405696, 4755801206503243776,
                                    9295429630892703744, 1152921504606846976, 576460752303423488]],
                        rotated := { rot := 18446462598867122175,
                                     rot90 := 14106333703525614531,
                                     rot45L := 18100395835289275615,
                                     rot45R := 18100395833158632671 },
                        castling := 15,
                        enpassant := 19 },
               hash := 919,
               noprogress := 0,
               next := { type := 3, fromSq := 51, toSq := 35, piece := 1, promotion := 0, capture := 0 } },
             { pos := { pieces := [[65535, 65280, 36, 66, 129, 16, 8],
                                   [18446462598732840960, 71776119061217280, 2594073385365405696, 4755801206503243776,
                                    9295429630892703744, 1152921504606846976, 576460752303423488]],
                        rotated := { rot := 18446462598732906495,
                                     rot90 := 14106333703424951235,
                                     rot45L := 18100395833141857503,
                                     rot45R := 18100395833141857503 },
                        castling := 15,
                        enpassant := 0 },
               hash := 515,
               noprogress := 0,
               next := { type := 3, fromSq := 11, toSq := 27, piece := 1, promotion := 0, capture := 0 } }] }

/-- Board state after the first 7 pushes of the C3 sequence, computed by
the embedding itself and verified by the step lemmas below. -/
def c3b7 : Board :=
  { repetitions := [(515, 2), (919, 1), (285, 1), (128, 2), (637, 1), (254, 1)],
    fullmoves := 4,
    turn := 1,
    result := { outcome := 0, reason := 0 },
    hist := [{ pos := { pieces := [[134543357, 134280960, 36, 262208, 129, 16, 8],
                                   [18444210833278894080, 69524353607270400, 2594073385365405696, 4755801206503243776,
                                    9295429630892703744, 1152921504606846976, 576460752303423488]],
                        rotated := { rot := 18444210833413437437,
                                     rot90 := 14106333702720570051,
                                     rot45L := 18095892786489363679,
                                     rot45R := 18100255099965248733 },
                        castling := 15,
                        enpassant := 0 },
               hash := 128,
               noprogress := 5,
               next := { type := 0, fromSq := 0, toSq := 0, piece := 0, promotion := 0, capture := 0 } },
             { pos := { pieces := [[134281215, 134280960, 36, 66, 129, 16, 8],
                                   [18444210833278894080, 69524353607270400, 2594073385365405696, 4755801206503243776,
                                    9295429630892703744, 1152921504606846976, 576460752303423488]],
                        rotated := { rot := 18444210833413175295,
                                     rot90 := 14106333702720308163,
                                     rot45L := 18095892785417719007,
                                     rot45R := 18100255099965244639 },
                        castling := 15,
                        enpassant := 0 },
               hash := 515,
               noprogress := 4,
               next := { type := 1, fromSq := 1, toSq := 18, piece := 3, promotion := 0, capture := 0 } },
             { pos := { pieces := [[134281215, 134280960, 36, 66, 129, 16, 8],
                                   [13832559999223595008, 69524353607270400, 2594073385365405696, 144150372447944704,
                                    9295429630892703744, 1152921504606846976, 576460752303423488]],
                        rotated := { rot := 13832559999357876223,
                                     rot90 := 14070340090073433027,
                                     rot45L := 18095888395961142495,
                                     rot45R := 13490820881351541983 },
                        castling := 15,
                        enpassant := 0 },
               hash := 254,
               noprogress := 3,
               next := { type := 1, fromSq := 45, toSq := 62, piece := 3, promotion := 0, capture := 0 } },
             { pos := { pieces := [[134543357, 134280960, 36, 262208, 129, 16, 8],
                                   [13832559999223595008, 69524353607270400, 2594073385365405696, 144150372447944704,
                                    9295429630892703744, 1152921504606846976, 576460752303423488]],
                        rotated := { rot := 13832559999358138365,
                                     rot90 := 14070340090073694915,
                                     rot45L := 18095888397032787167,
                                     rot45R := 13490820881351546077 },
                        castling := 15,
                        enpassant := 0 },
               hash := 637,
               noprogress := 2,
               next := { type := 1, fromSq := 18, toSq := 1, piece := 3, promotion := 0, capture := 0 } },
             { pos := { pieces := [[134543357, 134280960, 36, 262208, 129, 16, 8],
                                   [18444210833278894080, 69524353607270400, 2594073385365405696, 4755801206503243776,
                                    9295429630892703744, 1152921504606846976, 576460752303423488]],
                        rotated := { rot := 18444210833413437437,
                                     rot90 := 14106333702720570051,
                                     rot45L := 18095892786489363679,
                                     rot45R := 18100255099965248733 },
                        castling := 15,
                        enpassant := 0 },
               hash := 128,
               noprogress := 1,
               next := { type := 1, fromSq := 62, toSq := 45, piece := 3, promotion := 0, capture := 0 } },
             { pos := { pieces := [[134281215, 134280960, 36, 66, 129, 16, 8],
                                   [18444210833278894080, 69524353607270400, 2594073385365405696, 4755801206503243776,
                                    9295429630892703744, 1152921504606846976, 576460752303423488]],
                        rotated := { rot := 18444210833413175295,
                                     rot90 := 14106333702720308163,
                                     rot45L := 18095892785417719007,
                                     rot45R := 18100255099965244639 },
                        castling := 15,
                        enpassant := 43 },
               hash := 285,
               noprogress := 0,
               next := { type := 1, fromSq := 1, toSq := 18, piece := 3, promotion := 0, capture := 0 } },
             { pos := { pieces := [[134281215, 134280960, 36, 66, 129, 16, 8],
                                   [18446462598732840960, 71776119061217280, 2594073385365405696, 4755801206503243776,
                                    9295429630892703744, 1152921504606846976, 576460752303423488]],
                        rotated := { rot := 18446462598867122175,
                                     rot90 := 14106333703525614531,
                                     rot45L := 18100395835289275615,
                                     rot45R := 18100395833158632671 },
                        castling := 15,
                        enpassant := 19 },
               hash := 919,
               noprogress := 0,
               next := { type := 3, fromSq := 51, toSq := 35, piece := 1, promotion := 0, capture := 0 } },
             { pos := { pieces := [[65535, 65280, 36, 66, 129, 16, 8],
                                   [18446462598732840960, 71776119061217280, 2594073385365405696, 4755801206503243776,
                                    9295429630892703744, 1152921504606846976, 576460752303423488]],
                        rotated := { rot := 18446462598732906495,
                                     rot90 := 14106333703424951235,
                                     rot45L := 18100395833141857503,
                                     rot45R := 18100395833141857503 },
                        castling := 15,
                        enpassant := 0 },
               hash := 515,
               noprogress := 0,
               next := { type := 3, fromSq := 11, toSq := 27, piece := 1, promotion := 0, capture := 0 } }] }

/-- Board state after the first 8 pushes of the C3 sequence, computed by
the embedding itself and verified by the step lemmas below. -/
def c3b8 : Board :=
  { repetitions := [(515, 2), (919, 1), (285, 1), (128, 2), (637, 2), (254, 1)],
    fullmoves := 5,
    turn := 0,
    result := { outcome := 0, reason := 0 },
    hist := [{ pos := { pieces := [[134543357, 134280960, 36, 262208, 129, 16, 8],
                                   [13832559999223595008, 69524353607270400, 2594073385365405696, 144150372447944704,
                                    9295429630892703744, 1152921504606846976, 576460752303423488]],
                        rotated := { rot := 13832559999358138365,
                                     rot90 := 14070340090073694915,
                                     rot45L := 18095888397032787167,
                                     rot45R := 13490820881351546077 },
                        castling := 15,
                        enpassant := 0 },
               hash := 637,
               noprogress := 6,
               next := { type := 0, fromSq := 0, toSq := 0, piece := 0, promotion := 0, capture := 0 } },
             { pos := { pieces := [[134543357, 134280960, 36, 262208, 129, 16, 8],
                                   [18444210833278894080, 69524353607270400, 2594073385365405696, 4755801206503243776,
                                    9295429630892703744, 1152921504606846976, 576460752303423488]],
                        rotated := { rot := 18444210833413437437,
                                     rot90 := 14106333702720570051,
                                     rot45L := 18095892786489363679,
                                     rot45R := 18100255099965248733 },
                        castling := 15,
                        enpassant := 0 },
               hash := 128,
               noprogress := 5,
               next := { type := 1, fromSq := 62, toSq := 45, piece := 3, promotion := 0, capture := 0 } },
             { pos := { pieces := [[134281215, 134280960, 36, 66, 129, 16, 8],
                                   [18444210833278894080, 69524353607270400, 2594073385365405696, 4755801206503243776,
                                    9295429630892703744, 1152921504606846976, 576460752303423488]],
                        rotated := { rot := 18444210833413175295,
                                     rot90 := 14106333702720308163,
                                     rot45L := 18095892785417719007,
                                     rot45R := 18100255099965244639 },
                        castling := 15,
                        enpassant := 0 },
               hash := 515,
               noprogress := 4,
               next := { type := 1, fromSq := 1, toSq := 18, piece := 3, promotion := 0, capture := 0 } },
             { pos := { pieces := [[134281215, 134280960, 36, 66, 129, 16, 8],
                                   [13832559999223595008, 69524353607270400, 2594073385365405696, 144150372447944704,
                                    9295429630892703744, 1152921504606846976, 576460752303423488]],
                        rotated := { rot := 13832559999357876223,
                                     rot90 := 14070340090073433027,
                                     rot45L := 18095888395961142495,
                                     rot45R := 13490820881351541983 },
                        castling := 15,
                        enpassant := 0 },
               hash := 254,
               noprogress := 3,
               next := { type := 1, fromSq := 45, toSq := 62, piece := 3, promotion := 0, capture := 0 } },
             { pos := { pieces := [[134543357, 134280960, 36, 262208, 129, 16, 8],
                                   [13832559999223595008, 69524353607270400, 2594073385365405696, 144150372447944704,
                                    9295429630892703744, 1152921504606846976, 576460752303423488]],
                        rotated := { rot := 13832559999358138365,
                                     rot90 := 14070340090073694915,
                                     rot45L := 18095888397032787167,
                                     rot45R := 13490820881351546077 },
                        castling := 15,
                        enpassant := 0 },
               hash := 637,
               noprogress := 2,
               next := { type := 1, fromSq := 18, toSq := 1, piece := 3, promotion := 0, capture := 0 } },
             { pos := { pieces := [[134543357, 134280960, 36, 262208, 129, 16, 8],
                                   [18444210833278894080, 69524353607270400, 2594073385365405696, 4755801206503243776,
                                    9295429630892703744, 1152921504606846976, 576460752303423488]],
                        rotated := { rot := 18444210833413437437,
                                     rot90 := 14106333702720570051,
                                     rot45L := 18095892786489363679,
                                     rot45R := 18100255099965248733 },
                        castling := 15,
                        enpassant := 0 },
               hash := 128,
               noprogress := 1,
               next := { type := 1, fromSq := 62, toSq := 45, piece := 3, promotion := 0, capture := 0 } },
             { pos := { pieces := [[134281215, 134280960, 36, 66, 129, 16, 8],
                                   [18444210833278894080, 69524353607270400, 2594073385365405696, 4755801206503243776,
                                    9295429630892703744, 1152921504606846976, 576460752303423488]],
                        rotated := { rot := 18444210833413175295,
                                     rot90 := 14106333702720308163,
                                     rot45L := 18095892785417719007,
                                     rot45R := 18100255099965244639 },
                        castling := 15,
                        enpassant := 43 },
               hash := 285,
               noprogress := 0,
               next := { type := 1, fromSq := 1, toSq := 18, piece := 3, promotion := 0, capture := 0 } },
             { pos := { pieces := [[134281215, 134280960, 36, 66, 129, 16, 8],
                                   [18446462598732840960, 71776119061217280, 2594073385365405696, 4755801206503243776,
                                    9295429630892703744, 1152921504606846976, 576460752303423488]],
                        rotated := { rot := 18446462598867122175,
                                     rot90 := 14106333703525614531,
                                     rot45L := 18100395835289275615,
                                     rot45R := 18100395833158632671 },
                        castling := 15,
                        enpassant := 19 },
               hash := 919,
               noprogress := 0,
               next := { type := 3, fromSq := 51, toSq := 35, piece := 1, promotion := 0, capture := 0 } },
             { pos := { pieces := [[65535, 65280, 36, 66, 129, 16, 8],
                                   [18446462598732840960, 71776119061217280, 2594073385365405696, 4755801206503243776,
                                    9295429630892703744, 1152921504606846976, 576460752303423488]],
                        rotated := { rot := 18446462598732906495,
                                     rot90 := 14106333703424951235,
                                     rot45L := 18100395833141857503,
                                     rot45R := 18100395833141857503 },
                        castling := 15,
                        enpassant := 0 },
               hash := 515,
               noprogress := 0,
               next := { type := 3, fromSq := 11, toSq := 27, piece := 1, promotion := 0, capture := 0 } }] }

/-- Board state after the first 9 pushes of the C3 sequence, computed by
the embedding itself and verified by the step lemmas below. -/
def c3b9 : Board :=
  { repetitions := [(515, 2), (919, 1), (285, 1), (128, 2), (637, 2), (254, 2)],
    fullmoves := 5,
    turn := 1,
    result := { outcome := 0, reason := 0 },
    hist := [{ pos := { pieces := [[134281215, 134280960, 36, 66, 129, 16, 8],
                                   [13832559999223595008, 69524353607270400, 2594073385365405696, 144150372447944704,
                                    9295429630892703744, 1152921504606846976, 576460752303423488]],
                        rotated := { rot := 13832559999357876223,
                                     rot90 := 14070340090073433027,
                                     rot45L := 18095888395961142495,
                                     rot45R := 13490820881351541983 },
                        castling := 15,
                        enpassant := 0 },
               hash := 254,
               noprogress := 7,
               next := { type := 0, fromSq := 0, toSq := 0, piece := 0, promotion := 0, capture := 0 } },
             { pos := { pieces := [[134543357, 134280960, 36, 262208, 129, 16, 8],
                                   [13832559999223595008, 69524353607270400, 2594073385365405696, 144150372447944704,
                                    9295429630892703744, 1152921504606846976, 576460752303423488]],
                        rotated := { rot := 13832559999358138365,
                                     rot90 := 14070340090073694915,
                                     rot45L := 18095888397032787167,
                                     rot45R := 13490820881351546077 },
                        castling := 15,
                        enpassant := 0 },
               hash := 637,
               noprogress := 6,
               next := { type := 1, fromSq := 18, toSq := 1, piece := 3, promotion := 0, capture := 0 } },
             { pos := { pieces := [[134543357, 134280960, 36, 262208, 129, 16, 8],
                                   [18444210833278894080, 69524353607270400, 2594073385365405696, 4755801206503243776,
                                    9295429630892703744, 1152921504606846976, 576460752303423488]],
                        rotated := { rot := 18444210833413437437,
                                     rot90 := 14106333702720570051,
                                     rot45L := 18095892786489363679,
                                     rot45R := 18100255099965248733 },
                        castling := 15,
                        enpassant := 0 },
               hash := 128,
               noprogress := 5,
               next := { type := 1, fromSq := 62, toSq := 45, piece := 3, promotion := 0, capture := 0 } },
             { pos := { pieces := [[134281215, 134280960, 36, 66, 129, 16, 8],
                                   [18444210833278894080, 69524353607270400, 2594073385365405696, 4755801206503243776,
                                    9295429630892703744, 1152921504606846976, 576460752303423488]],
                        rotated := { rot := 18444210833413175295,
                                     rot90 := 14106333702720308163,
                                     rot45L := 18095892785417719007,
                                     rot45R := 18100255099965244639 },
                        castling := 15,
                        enpassant := 0 },
               hash := 515,
               noprogress := 4,
               next := { type := 1, fromSq := 1, toSq := 18, piece := 3, promotion := 0, capture := 0 } },
             { pos := { pieces := [[134281215, 134280960, 36, 66, 129, 16, 8],
                                   [13832559999223595008, 69524353607270400, 2594073385365405696, 144150372447944704,
                                    9295429630892703744, 1152921504606846976, 576460752303423488]],
                        rotated := { rot := 13832559999357876223,
                                     rot90 := 14070340090073433027,
                                     rot45L := 18095888395961142495,
                                     rot45R := 13490820881351541983 },
                        castling := 15,
                        enpassant := 0 },
               hash := 254,
               noprogress := 3,
               next := { type := 1, fromSq := 45, toSq := 62, piece := 3, promotion := 0, capture := 0 } },
             { pos := { pieces := [[134543357, 134280960, 36, 262208, 129, 16, 8],
                                   [13832559999223595008, 69524353607270400, 2594073385365405696, 144150372447944704,
                                    9295429630892703744, 1152921504606846976, 576460752303423488]],
                        rotated := { rot := 13832559999358138365,
                                     rot90 := 14070340090073694915,
                                     rot45L := 18095888397032787167,
                                     rot45R := 13490820881351546077 },
                        castling := 15,
                        enpassant := 0 },
               hash := 637,
               noprogress := 2,
               next := { type := 1, fromSq := 18, toSq := 1, piece := 3, promotion := 0, capture := 0 } },
             { pos := { pieces := [[134543357, 134280960, 36, 262208, 129, 16, 8],
                                   [18444210833278894080, 69524353607270400, 2594073385365405696, 4755801206503243776,
                                    9295429630892703744, 1152921504606846976, 576460752303423488]],
                        rotated := { rot := 18444210833413437437,
                                     rot90 := 14106333702720570051,
                                     rot45L := 18095892786489363679,
                                     rot45R := 18100255099965248733 },
                        castling := 15,
                        enpassant := 0 },
               hash := 128,
               noprogress := 1,
               next := { type := 1, fromSq := 62, toSq := 45, piece := 3, promotion := 0, capture := 0 } },
             { pos := { pieces := [[134281215, 134280960, 36, 66, 129, 16, 8],
                                   [18444210833278894080, 69524353607270400, 2594073385365405696, 4755801206503243776,
                                    9295429630892703744, 1152921504606846976, 576460752303423488]],
                        rotated := { rot := 18444210833413175295,
                                     rot90 := 14106333702720308163,
                                     rot45L := 18095892785417719007,
                                     rot45R := 18100255099965244639 },
                        castling := 15,
                        enpassant := 43 },
               hash := 285,
               noprogress := 0,
               next := { type := 1, fromSq := 1, toSq := 18, piece := 3, promotion := 0, capture := 0 } },
             { pos := { pieces := [[134281215, 134280960, 36, 66, 129, 16, 8],
                                   [18446462598732840960, 71776119061217280, 2594073385365405696, 4755801206503243776,
                                    9295429630892703744, 1152921504606846976, 576460752303423488]],
                        rotated := { rot := 18446462598867122175,
                                     rot90 := 14106333703525614531,
                                     rot45L := 18100395835289275615,
                                     rot45R := 18100395833158632671 },
                        castling := 15,
                        enpassant := 19 },
               hash := 919,
               noprogress := 0,
               next := { type := 3, fromSq := 51, toSq := 35, piece := 1, promotion := 0, capture := 0 } },
             { pos := { pieces := [[65535, 65280, 36, 66, 129, 16, 8],
                                   [18446462598732840960, 71776119061217280, 2594073385365405696, 4755801206503243776,
                                    9295429630892703744, 1152921504606846976, 576460752303423488]],
                        rotated := { rot := 18446462598732906495,
                                     rot90 := 14106333703424951235,
                                     rot45L := 18100395833141857503,
                                     rot45R := 18100395833141857503 },
                        castling := 15,
                        enpassant := 0 },
               hash := 515,
               noprogress := 0,
               next := { type := 3, fromSq := 11, toSq := 27, piece := 1, promotion := 0, capture := 0 } }] }

/-- Board state after the first 10 pushes of the C3 sequence, computed by
the embedding itself and verified by the step lemmas below. -/
def c3b10 : Board :=
  { repetitions := [(515, 3), (919, 1), (285, 1), (128, 2), (637, 2), (254, 2)],
    fullmoves := 6,
    turn := 0,
    result := { outcome := 0, reason := 0 },
    hist := [{ pos := { pieces := [[134281215, 134280960, 36, 66, 129, 16, 8],
                                   [18444210833278894080, 69524353607270400, 2594073385365405696, 4755801206503243776,
                                    9295429630892703744, 1152921504606846976, 576460752303423488]],
                        rotated := { rot := 18444210833413175295,
                                     rot90 := 14106333702720308163,
                                     rot45L := 18095892785417719007,
                                     rot45R := 18100255099965244639 },
                        castling := 15,
                        enpassant := 0 },
               hash := 515,
               noprogress := 8,
               next := { type := 0, fromSq := 0, toSq := 0, piece := 0, promotion := 0, capture := 0 } },
             { pos := { pieces := [[134281215, 134280960, 36, 66, 129, 16, 8],
                                   [13832559999223595008, 69524353607270400, 2594073385365405696, 144150372447944704,
                                    9295429630892703744, 1152921504606846976, 576460752303423488]],
                        rotated := { rot := 13832559999357876223,
                                     rot90 := 14070340090073433027,
                                     rot45L := 18095888395961142495,
                                     rot45R := 13490820881351541983 },
                        castling := 15,
                        enpassant := 0 },
               hash := 254,
               noprogress := 7,
               next := { type := 1, fromSq := 45, toSq := 62, piece := 3, promotion := 0, capture := 0 } },
             { pos := { pieces := [[134543357, 134280960, 36, 262208, 129, 16, 8],
                                   [13832559999223595008, 69524353607270400, 2594073385365405696, 144150372447944704,
                                    9295429630892703744, 1152921504606846976, 576460752303423488]],
                        rotated := { rot := 13832559999358138365,
                                     rot90 := 14070340090073694915,
                                     rot45L := 18095888397032787167,
                                     rot45R := 13490820881351546077 },
                        castling := 15,
                        enpassant := 0 },
               hash := 637,
               noprogress := 6,
               next := { type := 1, fromSq := 18, toSq := 1, piece := 3, promotion := 0, capture := 0 } },
             { pos := { pieces := [[134543357, 134280960, 36, 262208, 129, 16, 8],
                                   [18444210833278894080, 69524353607270400, 2594073385365405696, 4755801206503243776,
                                    9295429630892703744, 1152921504606846976, 576460752303423488]],
                        rotated := { rot := 18444210833413437437,
                                     rot90 := 14106333702720570051,
                                     rot45L := 18095892786489363679,
                                     rot45R := 18100255099965248733 },
                        castling := 15,
                        enpassant := 0 },
               hash := 128,
               noprogress := 5,
               next := { type := 1, fromSq := 62, toSq := 45, piece := 3, promotion := 0, capture := 0 } },
             { pos := { pieces := [[134281215, 134280960, 36, 66, 129, 16, 8],
                                   [18444210833278894080, 69524353607270400, 2594073385365405696, 4755801206503243776,
                                    9295429630892703744, 1152921504606846976, 576460752303423488]],
                        rotated := { rot := 18444210833413175295,
                                     rot90 := 14106333702720308163,
                                     rot45L := 18095892785417719007,
                                     rot45R := 18100255099965244639 },
                        castling := 15,
                        enpassant := 0 },
               hash := 515,
               noprogress := 4,
               next := { type := 1, fromSq := 1, toSq := 18, piece := 3, promotion := 0, capture := 0 } },
             { pos := { pieces := [[134281215, 134280960, 36, 66, 129, 16, 8],
                                   [13832559999223595008, 69524353607270400, 2594073385365405696, 144150372447944704,
                                    9295429630892703744, 1152921504606846976, 576460752303423488]],
                        rotated := { rot := 13832559999357876223,
                                     rot90 := 14070340090073433027,
                                     rot45L := 18095888395961142495,
                                     rot45R := 13490820881351541983 },
                        castling := 15,
                        enpassant := 0 },
               hash := 254,
               noprogress := 3,
               next := { type := 1, fromSq := 45, toSq := 62, piece := 3, promotion := 0, capture := 0 } },
             { pos := { pieces := [[134543357, 134280960, 36, 262208, 129, 16, 8],
                                   [13832559999223595008, 69524353607270400, 2594073385365405696, 144150372447944704,
                                    9295429630892703744, 1152921504606846976, 576460752303423488]],
                        rotated := { rot := 13832559999358138365,
                                     rot90 := 14070340090073694915,
                                     rot45L := 18095888397032787167,
                                     rot45R := 13490820881351546077 },
                        castling := 15,
                        enpassant := 0 },
               hash := 637,
               noprogress := 2,
               next := { type := 1, fromSq := 18, toSq := 1, piece := 3, promotion := 0, capture := 0 } },
             { pos := { pieces := [[134543357, 134280960, 36, 262208, 129, 16, 8],
                                   [18444210833278894080, 69524353607270400, 2594073385365405696, 4755801206503243776,
                                    9295429630892703744, 1152921504606846976, 576460752303423488]],
                        rotated := { rot := 18444210833413437437,
                                     rot90 := 14106333702720570051,
                                     rot45L := 18095892786489363679,
                                     rot45R := 18100255099965248733 },
                        castling := 15,
                        enpassant := 0 },
               hash := 128,
               noprogress := 1,
               next := { type := 1, fromSq := 62, toSq := 45, piece := 3, promotion := 0, capture := 0 } },
             { pos := { pieces := [[134281215, 134280960, 36, 66, 129, 16, 8],
                                   [18444210833278894080, 69524353607270400, 2594073385365405696, 4755801206503243776,
                                    9295429630892703744, 1152921504606846976, 576460752303423488]],
                        rotated := { rot := 18444210833413175295,
                                     rot90 := 14106333702720308163,
                                     rot45L := 18095892785417719007,
                                     rot45R := 18100255099965244639 },
                        castling := 15,
                        enpassant := 43 },
               hash := 285,
               noprogress := 0,
               next := { type := 1, fromSq := 1, toSq := 18, piece := 3, promotion := 0, capture := 0 } },
             { pos := { pieces := [[134281215, 134280960, 36, 66, 129, 16, 8],
                                   [18446462598732840960, 71776119061217280, 2594073385365405696, 4755801206503243776,
                                    9295429630892703744, 1152921504606846976, 576460752303423488]],
                        rotated := { rot := 18446462598867122175,
                                     rot90 := 14106333703525614531,
                                     rot45L := 18100395835289275615,
                                     rot45R := 18100395833158632671 },
                        castling := 15,
                        enpassant := 19 },
               hash := 919,
               noprogress := 0,
               next := { type := 3, fromSq := 51, toSq := 35, piece := 1, promotion := 0, capture := 0 } },
             { pos := { pieces := [[65535, 65280, 36, 66, 129, 16, 8],
                                   [18446462598732840960, 71776119061217280, 2594073385365405696, 4755801206503243776,
                                    9295429630892703744, 1152921504606846976, 576460752303423488]],
                        rotated := { rot := 18446462598732906495,
                                     rot90 := 14106333703424951235,
                                     rot45L := 18100395833141857503,
                                     rot45R := 18100395833141857503 },
                        castling := 15,
                        enpassant := 0 },
               hash := 515,
               noprogress := 0,
               next := { type := 3, fromSq := 11, toSq := 27, piece := 1, promotion := 0, capture := 0 } }] }

/-- Board state after the first 11 pushes of the C3 sequence, computed by
the embedding itself and verified by the step lemmas below. -/
def c3b11 : Board :=
  { repetitions := [(515, 3), (919, 1), (285, 1), (128, 3), (637, 2), (254, 2)],
    fullmoves := 6,
    turn := 1,
    result := { outcome := 4, reason := 3 },
    hist := [{ pos := { pieces := [[134543357, 134280960, 36, 262208, 129, 16, 8],
                                   [18444210833278894080, 69524353607270400, 2594073385365405696, 4755801206503243776,
                                    9295429630892703744, 1152921504606846976, 576460752303423488]],
                        rotated := { rot := 18444210833413437437,
                                     rot90 := 14106333702720570051,
                                     rot45L := 18095892786489363679,
                                     rot45R := 18100255099965248733 },
                        castling := 15,
                        enpassant := 0 },
               hash := 128,
               noprogress := 9,
               next := { type := 0, fromSq := 0, toSq := 0, piece := 0, promotion := 0, capture := 0 } },
             { pos := { pieces := [[134281215, 134280960, 36, 66, 129, 16, 8],
                                   [18444210833278894080, 69524353607270400, 2594073385365405696, 4755801206503243776,
                                    9295429630892703744, 1152921504606846976, 576460752303423488]],
                        rotated := { rot := 18444210833413175295,
                                     rot90 := 14106333702720308163,
                                     rot45L := 18095892785417719007,
                                     rot45R := 18100255099965244639 },
                        castling := 15,
                        enpassant := 0 },
               hash := 515,
               noprogress := 8,
               next := { type := 1, fromSq := 1, toSq := 18, piece := 3, promotion := 0, capture := 0 } },
             { pos := { pieces := [[134281215, 134280960, 36, 66, 129, 16, 8],
                                   [13832559999223595008, 69524353607270400, 2594073385365405696, 144150372447944704,
                                    9295429630892703744, 1152921504606846976, 576460752303423488]],
                        rotated := { rot := 13832559999357876223,
                                     rot90 := 14070340090073433027,
                                     rot45L := 18095888395961142495,
                                     rot45R := 13490820881351541983 },
                        castling := 15,
                        enpassant := 0 },
               hash := 254,
               noprogress := 7,
               next := { type := 1, fromSq := 45, toSq := 62, piece := 3, promotion := 0, capture := 0 } },
             { pos := { pieces := [[134543357, 134280960, 36, 262208, 129, 16, 8],
                                   [13832559999223595008, 69524353607270400, 2594073385365405696, 144150372447944704,
                                    9295429630892703744, 1152921504606846976, 576460752303423488]],
                        rotated := { rot := 13832559999358138365,
                                     rot90 := 14070340090073694915,
                                     rot45L := 18095888397032787167,
                                     rot45R := 13490820881351546077 },
                        castling := 15,
                        enpassant := 0 },
               hash := 637,
               noprogress := 6,
               next := { type := 1, fromSq := 18, toSq := 1, piece := 3, promotion := 0, capture := 0 } },
             { pos := { pieces := [[134543357, 134280960, 36, 262208, 129, 16, 8],
                                   [18444210833278894080, 69524353607270400, 2594073385365405696, 4755801206503243776,
                                    9295429630892703744, 1152921504606846976, 576460752303423488]],
                        rotated := { rot := 18444210833413437437,
                                     rot90 := 14106333702720570051,
                                     rot45L := 18095892786489363679,
                                     rot45R := 18100255099965248733 },
                        castling := 15,
                        enpassant := 0 },
               hash := 128,
               noprogress := 5,
               next := { type := 1, fromSq := 62, toSq := 45, piece := 3, promotion := 0, capture := 0 } },
             { pos := { pieces := [[134281215, 134280960, 36, 66, 129, 16, 8],
                                   [18444210833278894080, 69524353607270400, 2594073385365405696, 4755801206503243776,
                                    9295429630892703744, 1152921504606846976, 576460752303423488]],
                        rotated := { rot := 18444210833413175295,
                                     rot90 := 14106333702720308163,
                                     rot45L := 18095892785417719007,
                                     rot45R := 18100255099965244639 },
                        castling := 15,
                        enpassant := 0 },
               hash := 515,
               noprogress := 4,
               next := { type := 1, fromSq := 1, toSq := 18, piece := 3, promotion := 0, capture := 0 } },
             { pos := { pieces := [[134281215, 134280960, 36, 66, 129, 16, 8],
                                   [13832559999223595008, 69524353607270400, 2594073385365405696, 144150372447944704,
                                    9295429630892703744, 1152921504606846976, 576460752303423488]],
                        rotated := { rot := 13832559999357876223,
                                     rot90 := 14070340090073433027,
                                     rot45L := 18095888395961142495,
                                     rot45R := 13490820881351541983 },
                        castling := 15,
                        enpassant := 0 },
               hash := 254,
               noprogress := 3,
               next := { type := 1, fromSq := 45, toSq := 62, piece := 3, promotion := 0, capture := 0 } },
             { pos := { pieces := [[134543357, 134280960, 36, 262208, 129, 16, 8],
                                   [13832559999223595008, 69524353607270400, 2594073385365405696, 144150372447944704,
                                    9295429630892703744, 1152921504606846976, 576460752303423488]],
                        rotated := { rot := 13832559999358138365,
                                     rot90 := 14070340090073694915,
                                     rot45L := 18095888397032787167,
                                     rot45R := 13490820881351546077 },
                        castling := 15,
                        enpassant := 0 },
               hash := 637,
               noprogress := 2,
               next := { type := 1, fromSq := 18, toSq := 1, piece := 3, promotion := 0, capture := 0 } },
             { pos := { pieces := [[134543357, 134280960, 36, 262208, 129, 16, 8],
                                   [18444210833278894080, 69524353607270400, 2594073385365405696, 4755801206503243776,
                                    9295429630892703744, 1152921504606846976, 576460752303423488]],
                        rotated := { rot := 18444210833413437437,
                                     rot90 := 14106333702720570051,
                                     rot45L := 18095892786489363679,
                                     rot45R := 18100255099965248733 },
                        castling := 15,
                        enpassant := 0 },
               hash := 128,
               noprogress := 1,
               next := { type := 1, fromSq := 62, toSq := 45, piece := 3, promotion := 0, capture := 0 } },
             { pos := { pieces := [[134281215, 134280960, 36, 66, 129, 16, 8],
                                   [18444210833278894080, 69524353607270400, 2594073385365405696, 4755801206503243776,
                                    9295429630892703744, 1152921504606846976, 576460752303423488]],
                        rotated := { rot := 18444210833413175295,
                                     rot90 := 14106333702720308163,
                                     rot45L := 18095892785417719007,
                                     rot45R := 18100255099965244639 },
                        castling := 15,
                        enpassant := 43 },
               hash := 285,
               noprogress := 0,
               next := { type := 1, fromSq := 1, toSq := 18, piece := 3, promotion := 0, capture := 0 } },
             { pos := { pieces := [[134281215, 134280960, 36, 66, 129, 16, 8],
                                   [18446462598732840960, 71776119061217280, 2594073385365405696, 4755801206503243776,
                                    9295429630892703744, 1152921504606846976, 576460752303423488]],
                        rotated := { rot := 18446462598867122175,
                                     rot90 := 14106333703525614531,
                                     rot45L := 18100395835289275615,
                                     rot45R := 18100395833158632671 },
                        castling := 15,
                        enpassant := 19 },
               hash := 919,
               noprogress := 0,
               next := { type := 3, fromSq := 51, toSq := 35, piece := 1, promotion := 0, capture := 0 } },
             { pos := { pieces := [[65535, 65280, 36, 66, 129, 16, 8],
                                   [18446462598732840960, 71776119061217280, 2594073385365405696, 4755801206503243776,
                                    9295429630892703744, 1152921504606846976, 576460752303423488]],
                        rotated := { rot := 18446462598732906495,
                                     rot90 := 14106333703424951235,
                                     rot45L := 18100395833141857503,
                                     rot45R := 18100395833141857503 },
                        castling := 15,
                        enpassant := 0 },
               hash := 515,
               noprogress := 0,
               next := { type := 3, fromSq := 11, toSq := 27, piece := 1, promotion := 0, capture := 0 } }] }

/-- A castling-ready position for the C6 run: white king e1 and rook h1 with
the white king-side right, black king e8. -/
def posC6 : Position :=
  (newPosition [⟨3, 0, 6⟩, ⟨0, 0, 4⟩, ⟨59, 1, 6⟩] whiteKingSideCastle 0).getD emptyPosition

/-- White king-side castling as generated. -/
def mvOO : Move := { type := kingSideCastleM, fromSq := 3, toSq := 1, piece := kingP }

/-- The C6 start board. -/
def boardC6 : Board := newBoard ztTest posC6 white 0 1

/-- The C7 position: white king e1 and rooks a1 and h1, black king e8 and
rooks a8 and h8, all four castling rights. -/
def posC7 : Position :=
  (newPosition [⟨3, 0, 6⟩, ⟨7, 0, 4⟩, ⟨0, 0, 4⟩, ⟨59, 1, 6⟩, ⟨63, 1, 4⟩, ⟨56, 1, 4⟩]
    fullCastlingRights 0).getD emptyPosition

/-- The rook capture a1xa8 as generated. -/
def mvA1xa8 : Move := { type := captureM, fromSq := 7, toSq := 63, piece := rookP, capture := rookP }

/-- The C5 position: a lone white king on h1; black, to move, has no pieces,
so its pseudo-legal move list is empty and the search adjudicates without
recursing. -/
def posC5 : Position := (newPosition [⟨0, 0, 6⟩] 0 0).getD emptyPosition

/-- The C5 board with black to move. -/
def boardC5 : Board := newBoard ztTest posC5 black 0 1

/-- The zobrist hash of the C5 board. -/
def hashC5 : Nat := ztTest.hashP posC5 black

/-- The transposition entry of the C5 runs: Exact bound, depth 1, cached
score Heuristic 5, at the full hash of the C5 board. -/
def nodeC5 : TTNode := mkTTNode hashC5 exactBound 0 1 (heuristicScore 5) zeroMove

/-- A one-slot transposition table holding the C5 entry. -/
def ttC5 : TTable := { mask := 0, slots := fun k => if k = 0 then some nodeC5 else none, used := 1 }

/-- The C5 search state over the C5 board and table. -/
def stC5 : SearchState :=
  { tt := ttC5, zt := ztTest, b := boardC5, nodes := 0, ponder := [], quitC := false }

/-- IsAnyMove, the default Selection (search part 004 IsAnyMove). -/
def pickAny (_m : Move) (_b : Board) : Bool := true

/-- A ZeroPly quiescence evaluator over a constant-zero static evaluation
(search part 018 ZeroPly): one node, heuristic score zero. -/
def zeroPlyConst (_tt : TTable) (_b : Board) (_a _beta : Score) : Nat × Score :=
  (1, heuristicScore 0)

/-- The resulting position of g1f3 from the start, as Position.Move builds it. -/
def pos1C2 : Position := initialPosition.moveResult mvG1f3

/-- Heap order on edges whose parent index is at least s, within the first n
entries: every child is at most its parent. -/
def HeapFrom (l : List Elm) (n s : Nat) : Prop :=
  ∀ i j, s ≤ i → (j = 2 * i + 1 ∨ j = 2 * i + 2) → j < n → (hget l j).val ≤ (hget l i).val

set_option maxRecDepth 40000 in
/-- Step 1 of the C3 push sequence evaluates as recorded. -/
lemma c3step0 : c3b0.pushMove ztTest mvE2e4 = (c3b1, true) := by decide

set_option maxRecDepth 40000 in
/-- Step 2 of the C3 push sequence evaluates as recorded. -/
lemma c3step1 : c3b1.pushMove ztTest mvE7e5 = (c3b2, true) := by decide

set_option maxRecDepth 40000 in
/-- Step 3 of the C3 push sequence evaluates as recorded. -/
lemma c3step2 : c3b2.pushMove ztTest mvG1f3 = (c3b3, true) := by decide

set_option maxRecDepth 40000 in
/-- Step 4 of the C3 push sequence evaluates as recorded. -/
lemma c3step3 : c3b3.pushMove ztTest mvB8c6 = (c3b4, true) := by decide

set_option maxRecDepth 40000 in
/-- Step 5 of the C3 push sequence evaluates as recorded. -/
lemma c3step4 : c3b4.pushMove ztTest mvF3g1 = (c3b5, true) := by decide

set_option maxRecDepth 40000 in
/-- Step 6 of the C3 push sequence evaluates as recorded. -/
lemma c3step5 : c3b5.pushMove ztTest mvC6b8 = (c3b6, true) := by decide

set_option maxRecDepth 40000 in
/-- Step 7 of the C3 push sequence evaluates as recorded. -/
lemma c3step6 : c3b6.pushMove ztTest mvG1f3 = (c3b7, true) := by decide

set_option maxRecDepth 40000 in
/-- Step 8 of the C3 push sequence evaluates as recorded. -/
lemma c3step7 : c3b7.pushMove ztTest mvB8c6 = (c3b8, true) := by decide

set_option maxRecDepth 40000 in
/-- Step 9 of the C3 push sequence evaluates as recorded. -/
lemma c3step8 : c3b8.pushMove ztTest mvF3g1 = (c3b9, true) := by decide

set_option maxRecDepth 40000 in
/-- Step 10 of the C3 push sequence evaluates as recorded. -/
lemma c3step9 : c3b9.pushMove ztTest mvC6b8 = (c3b10, true) := by decide

set_option maxRecDepth 40000 in
/-- Step 11 of the C3 push sequence evaluates as recorded. -/
lemma c3step10 : c3b10.pushMove ztTest mvG1f3 = (c3b11, true) := by decide


set_option maxRecDepth 40000 in
/-- The start board of the concrete runs equals its recorded literal. -/
lemma boardStart_eq : boardStart = c3b0 := by decide

/-- The ten pushes of the C3 sequence, chained from the step lemmas. -/
lemma c3chain : pushAll ztTest boardStart seqC3 = (c3b10, true) := by
  rw [boardStart_eq]
  simp [pushAll, seqC3, c3step0, c3step1, c3step2, c3step3, c3step4, c3step5, c3step6,
    c3step7, c3step8, c3step9]

/-- One more g1f3 after the C3 sequence, chained from the step lemmas. -/
lemma c3chain11 : pushAll ztTest boardStart (seqC3 ++ [mvG1f3]) = (c3b11, true) := by
  rw [boardStart_eq]
  simp [pushAll, seqC3, c3step0, c3step1, c3step2, c3step3, c3step4, c3step5, c3step6,
    c3step7, c3step8, c3step9, c3step10]

/-! Heap correctness development for claim C8: the container/heap max-heap
operations, as embedded above, yield every element exactly once in
non-increasing priority order. -/

/-- Indexing an empty list gives the default. -/
lemma hget_nil (i : Nat) : hget [] i = default := by
  cases i <;> rfl

/-- Indexing head. -/
lemma hget_cons_zero (a : Elm) (l : List Elm) : hget (a :: l) 0 = a := rfl

/-- Indexing tail. -/
lemma hget_cons_succ (a : Elm) (l : List Elm) (i : Nat) : hget (a :: l) (i + 1) = hget l i := rfl

/-- Reading back a set index. -/
lemma hget_set_self (l : List Elm) (i : Nat) (a : Elm) (h : i < l.length) :
    hget (l.set i a) i = a := by
  induction l generalizing i with
  | nil => simp at h
  | cons b t ih =>
    cases i with
    | zero => rfl
    | succ k =>
      simp only [List.set_cons_succ, hget_cons_succ]
      exact ih k (by simpa using h)

/-- Reading an index other than the set one. -/
lemma hget_set_other (l : List Elm) (i k : Nat) (a : Elm) (h : i ≠ k) :
    hget (l.set i a) k = hget l k := by
  induction l generalizing i k with
  | nil => simp [List.set]
  | cons b t ih =>
    cases i with
    | zero =>
      cases k with
      | zero => exact absurd rfl h
      | succ k2 => rfl
    | succ i2 =>
      cases k with
      | zero => rfl
      | succ k2 =>
        simp only [List.set_cons_succ, hget_cons_succ]
        exact ih i2 k2 (fun hh => h (by rw [hh]))

/-- Length is preserved by hswap. -/
lemma hswap_length (l : List Elm) (i j : Nat) : (hswap l i j).length = l.length := by
  simp [hswap]

/-- The swapped-from index reads the swapped-to value. -/
lemma hget_hswap_left (l : List Elm) (i j : Nat) (hi : i < l.length) (hij : i ≠ j) :
    hget (hswap l i j) i = hget l j := by
  unfold hswap
  rw [hget_set_other _ _ _ _ (fun hh => hij hh.symm), hget_set_self _ _ _ hi]

/-- The swapped-to index reads the swapped-from value. -/
lemma hget_hswap_right (l : List Elm) (i j : Nat) (hj : j < l.length) :
    hget (hswap l i j) j = hget l i := by
  unfold hswap
  rw [hget_set_self]
  simpa using hj

/-- Other indices are unchanged by hswap. -/
lemma hget_hswap_other (l : List Elm) (i j k : Nat) (hik : k ≠ i) (hjk : k ≠ j) :
    hget (hswap l i j) k = hget l k := by
  unfold hswap
  rw [hget_set_other _ _ _ _ (fun hh => hjk hh.symm), hget_set_other _ _ _ _ (fun hh => hik hh.symm)]

/-- Swapping an index with itself rewrites the entry to itself. -/
lemma hget_hswap_same (l : List Elm) (i k : Nat) : hget (hswap l i i) k = hget l k := by
  rcases eq_or_ne k i with hk | hk
  · rcases Nat.lt_or_ge i l.length with hi | hi
    · rw [hk]
      exact hget_hswap_right l i i hi
    · rw [hk]
      have h2 : i ≥ (hswap l i i).length := by rw [hswap_length]; exact hi
      unfold hget
      rw [List.getD_eq_default, List.getD_eq_default]
      · exact hi
      · exact h2
  · exact hget_hswap_other l i i k hk hk

/-- A cons-level description of setting a successor index. -/
lemma perm_getD_set_cons (t : List Elm) (k : Nat) (a : Elm) (hk : k < t.length) :
    (hget t k :: t.set k a).Perm (a :: t) := by
  induction t generalizing k with
  | nil => simp at hk
  | cons b s ih =>
    cases k with
    | zero =>
      simpa [hget] using List.Perm.swap a b s
    | succ k2 =>
      have hk2 : k2 < s.length := by simpa using hk
      have h1 : (hget (b :: s) (k2+1) :: (b :: s).set (k2+1) a)
          = hget s k2 :: b :: s.set k2 a := rfl
      rw [h1]
      have h2 : (hget s k2 :: b :: s.set k2 a).Perm (b :: hget s k2 :: s.set k2 a) :=
        List.Perm.swap b (hget s k2) (s.set k2 a)
      have h3 : (b :: hget s k2 :: s.set k2 a).Perm (b :: a :: s) :=
        List.Perm.cons b (ih k2 hk2)
      have h4 : (b :: a :: s).Perm (a :: b :: s) := List.Perm.swap a b s
      exact (h2.trans h3).trans h4

/-- hswap permutes the list. -/
lemma hswap_perm (l : List Elm) (i j : Nat) (hi : i < l.length) (hj : j < l.length) :
    (hswap l i j).Perm l := by
  induction l generalizing i j with
  | nil => simp at hi
  | cons a t ih =>
    cases i with
    | zero =>
      cases j with
      | zero => simp [hswap, hget]
      | succ j2 =>
        have hj2 : j2 < t.length := by simpa using hj
        have hs : hswap (a :: t) 0 (j2+1) = hget t j2 :: t.set j2 a := by
          simp [hswap, hget]
        rw [hs]
        exact perm_getD_set_cons t j2 a hj2
    | succ i2 =>
      cases j with
      | zero =>
        have hi2 : i2 < t.length := by simpa using hi
        have hs : hswap (a :: t) (i2+1) 0 = hget t i2 :: t.set i2 a := by
          simp [hswap, hget]
        rw [hs]
        exact perm_getD_set_cons t i2 a hi2
      | succ j2 =>
        have hs : hswap (a :: t) (i2+1) (j2+1) = a :: hswap t i2 j2 := by
          simp [hswap, hget]
        rw [hs]
        exact List.Perm.cons a (ih i2 j2 (by simpa using hi) (by simpa using hj))

/-- downGo preserves length. -/
lemma downGo_length (n : Nat) : ∀ fuel l i, (downGo n fuel l i).length = l.length := by
  intro fuel
  induction fuel with
  | zero => intro l i; rfl
  | succ f ih =>
    intro l i
    simp only [downGo]
    split
    · split <;> split
      all_goals first
        | (rw [ih]; simp [hswap])
        | rfl
    · rfl

/-- downGo permutes the list. -/
lemma downGo_perm (n : Nat) : ∀ fuel l i, n ≤ l.length → (downGo n fuel l i).Perm l := by
  intro fuel
  induction fuel with
  | zero => intro l i _; exact List.Perm.refl l
  | succ f ih =>
    intro l i hn
    simp only [downGo]
    split
    · rename_i h1
      split <;> split
      · rename_i hc hl
        refine (ih (hswap l i (2*i+1+1)) (2*i+1+1) ?_).trans (hswap_perm l i (2*i+1+1) ?_ ?_)
        · rw [hswap_length]; exact hn
        · omega
        · omega
      · exact List.Perm.refl l
      · rename_i hc hl
        refine (ih (hswap l i (2*i+1)) (2*i+1) ?_).trans (hswap_perm l i (2*i+1) ?_ ?_)
        · rw [hswap_length]; exact hn
        · omega
        · omega
      · exact List.Perm.refl l
    · exact List.Perm.refl l

/-- downGo does not touch entries at or beyond n. -/
lemma downGo_untouched (n : Nat) : ∀ fuel l i k, n ≤ k → hget (downGo n fuel l i) k = hget l k := by
  intro fuel
  induction fuel with
  | zero => intro l i k _; rfl
  | succ f ih =>
    intro l i k hk
    simp only [downGo]
    split
    · rename_i h1
      split <;> split
      · rw [ih _ _ _ hk]
        apply hget_hswap_other <;> omega
      · rfl
      · rw [ih _ _ _ hk]
        apply hget_hswap_other <;> omega
      · rfl
    · rfl

/-- Sift-down correctness: if every heap edge with parent at least s holds
except possibly the edges out of the hole, and the children of a moved hole
stay below its parent, then downGo restores the heap order from s. -/
lemma downGo_spec (n : Nat) : ∀ fuel l s hole,
    n - hole < fuel →
    n ≤ l.length →
    s ≤ hole →
    (∀ i j, s ≤ i → i ≠ hole → (j = 2 * i + 1 ∨ j = 2 * i + 2) → j < n →
      (hget l j).val ≤ (hget l i).val) →
    (s < hole → ∀ j, (j = 2 * hole + 1 ∨ j = 2 * hole + 2) → j < n →
      (hget l j).val ≤ (hget l ((hole - 1) / 2)).val) →
    HeapFrom (downGo n fuel l hole) n s := by
  intro fuel
  induction fuel with
  | zero =>
    intro l s hole hf
    omega
  | succ f ih =>
    intro l s hole hf hn hs inv1 inv2
    simp only [downGo]
    split
    · rename_i h1
      set j := if 2*hole+1+1 < n ∧ hless l (2*hole+1+1) (2*hole+1) then 2*hole+1+1 else 2*hole+1 with hj
      have hjn : j < n := by rw [hj]; split <;> omega
      have hjchild : j = 2 * hole + 1 ∨ j = 2 * hole + 2 := by rw [hj]; split <;> omega
      have he : (2:Nat) * hole + 1 + 1 = 2 * hole + 2 := rfl
      have hmax : ∀ c, (c = 2 * hole + 1 ∨ c = 2 * hole + 2) → c < n →
          (hget l c).val ≤ (hget l j).val := by
        intro c hc hcn
        rw [hj]
        split
        · rename_i hcond
          have hlt : (hget l (2*hole+1)).val < (hget l (2*hole+2)).val := by
            have hx := hcond.2
            simp only [hless, decide_eq_true_eq] at hx
            rw [he] at hx
            omega
          rw [he]
          rcases hc with hc | hc <;> subst hc <;> omega
        · rename_i hcond
          rcases hc with hc | hc
          · subst hc; omega
          · subst hc
            have h2n : 2*hole+1+1 < n := by omega
            have hnot : ¬ ((hget l (2*hole+2)).val > (hget l (2*hole+1)).val) := by
              intro hgt
              apply hcond
              refine ⟨h2n, ?_⟩
              simp only [hless, decide_eq_true_eq]
              rw [he]
              exact hgt
            omega
      split
      · rename_i h2
        have hjgt : (hget l j).val > (hget l hole).val := by
          simpa [hless] using h2
        have hholej : hole ≠ j := by omega
        have hjlen : j < l.length := by omega
        have hholelen : hole < l.length := by omega
        have swleft : hget (hswap l hole j) hole = hget l j := hget_hswap_left l hole j hholelen hholej
        have swright : hget (hswap l hole j) j = hget l hole := hget_hswap_right l hole j hjlen
        have swother : ∀ k, k ≠ hole → k ≠ j → hget (hswap l hole j) k = hget l k := by
          intro k hk1 hk2
          exact hget_hswap_other l hole j k hk1 hk2
        apply ih (hswap l hole j) s j
        · omega
        · rw [hswap_length]; exact hn
        · omega
        · -- inv1 for the swapped list with the new hole j
          intro i c hi hij hc hcn
          rcases eq_or_ne i hole with hih | hih
          · subst hih
            rcases eq_or_ne c j with hcj | hcj
            · rw [hcj, swright, swleft]
              omega
            · have hchole : c ≠ i := by omega
              rw [swleft, swother c hchole hcj]
              exact hmax c hc hcn
          · have hine : i ≠ j := hij
            rcases eq_or_ne c hole with hch | hch
            · -- the child is the old hole, so i is the parent of the hole
              have hip : i = (hole - 1) / 2 := by omega
              have hshole : s < hole := by omega
              rw [hch, swleft, swother i hih hine]
              have h5 := inv2 hshole j hjchild hjn
              rw [← hip] at h5
              exact h5
            · have hcj : c ≠ j := by
                intro hcj
                apply hih
                omega
              rw [swother c hch hcj, swother i hih hine]
              exact inv1 i c hi hih hc hcn
        · -- inv2 for the swapped list at the new hole j
          intro hsj c hc hcn
          have hpj : (j - 1) / 2 = hole := by omega
          rw [hpj, swleft]
          have hchole : c ≠ hole := by omega
          have hcj : c ≠ j := by omega
          rw [swother c hchole hcj]
          have hjhole : j ≠ hole := by omega
          exact inv1 j c (by omega) hjhole hc hcn
      · rename_i h2
        have hle : (hget l j).val ≤ (hget l hole).val := by
          simp only [hless, decide_eq_true_eq, not_lt] at h2
          exact h2
        intro i c hi hc hcn
        rcases eq_or_ne i hole with hih | hih
        · subst hih
          exact le_trans (hmax c hc hcn) hle
        · exact inv1 i c hi hih hc hcn
    · rename_i h1
      intro i c hi hc hcn
      rcases eq_or_ne i hole with hih | hih
      · subst hih
        omega
      · exact inv1 i c hi hih hc hcn

/-- initHeapGo preserves length. -/
lemma initHeapGo_length (n : Nat) : ∀ k l, (initHeapGo n k l).length = l.length := by
  intro k
  induction k with
  | zero => intro l; rfl
  | succ k2 ih =>
    intro l
    simp only [initHeapGo]
    rw [ih, downH, downGo_length]

/-- initHeapGo permutes the list. -/
lemma initHeapGo_perm (n : Nat) : ∀ k l, n ≤ l.length → (initHeapGo n k l).Perm l := by
  intro k
  induction k with
  | zero => intro l _; exact List.Perm.refl l
  | succ k2 ih =>
    intro l hn
    simp only [initHeapGo]
    have hlen : (downH l k2 n).length = l.length := by rw [downH, downGo_length]
    exact (ih (downH l k2 n) (by omega)).trans (downGo_perm n (n+1) l k2 hn)

/-- Floyd construction: processing parents k-1 down to 0 turns heap order
from k into heap order from 0. -/
lemma initHeapGo_spec (n : Nat) : ∀ k l, n ≤ l.length → HeapFrom l n k →
    HeapFrom (initHeapGo n k l) n 0 := by
  intro k
  induction k with
  | zero => intro l _ hh; exact hh
  | succ k2 ih =>
    intro l hn hh
    simp only [initHeapGo]
    have hstep : HeapFrom (downH l k2 n) n k2 := by
      rw [downH]
      apply downGo_spec n (n+1) l k2 k2
      · omega
      · exact hn
      · exact le_refl k2
      · intro i j hi hik hj hjn
        exact hh i j (by omega) hj hjn
      · intro hcon
        omega
    have hlen : (downH l k2 n).length = l.length := by rw [downH, downGo_length]
    exact ih (downH l k2 n) (by omega) hstep

/-- heapInit yields the heap order on the whole list. -/
lemma heapInit_spec (l : List Elm) : HeapFrom (heapInit l) l.length 0 := by
  rw [heapInit]
  apply initHeapGo_spec
  · exact le_refl l.length
  · intro i j hi hj hjn
    omega

/-- heapInit permutes the list. -/
lemma heapInit_perm (l : List Elm) : (heapInit l).Perm l := by
  rw [heapInit]
  exact initHeapGo_perm l.length (l.length / 2) l (le_refl l.length)

/-- In a heap, every entry is at most the root. -/
lemma heap_le_root (l : List Elm) (n : Nat) (hh : HeapFrom l n 0) :
    ∀ k, k < n → (hget l k).val ≤ (hget l 0).val := by
  intro k
  induction k using Nat.strong_induction_on with
  | _ k ih =>
    intro hk
    match k, hk with
    | 0, _ => exact le_refl _
    | m+1, hk =>
      have hp : m + 1 = 2 * (m / 2) + 1 ∨ m + 1 = 2 * (m / 2) + 2 := by omega
      have h1 : (hget l (m+1)).val ≤ (hget l (m / 2)).val :=
        hh (m / 2) (m+1) (Nat.zero_le _) hp hk
      have h2 : (hget l (m / 2)).val ≤ (hget l 0).val := ih (m / 2) (by omega) (by omega)
      exact le_trans h1 h2

/-- hget agrees with list membership. -/
lemma mem_hget (l : List Elm) (e : Elm) (he : e ∈ l) :
    ∃ k, k < l.length ∧ hget l k = e := by
  induction l with
  | nil => simp at he
  | cons a t ih =>
    rcases List.mem_cons.mp he with he | he
    · subst he
      exact ⟨0, by simp, rfl⟩
    · rcases ih he with ⟨k, hk, hval⟩
      exact ⟨k+1, by simpa using hk, hval⟩

/-- In a heap, every element is at most the root entry. -/
lemma heap_mem_le_root (l : List Elm) (hh : HeapFrom l l.length 0) :
    ∀ e ∈ l, e.val ≤ (hget l 0).val := by
  intro e he
  rcases mem_hget l e he with ⟨k, hk, hval⟩
  rw [← hval]
  exact heap_le_root l l.length hh k hk

/-- getLastD is the entry at the last index. -/
lemma getLastD_eq_hget (l : List Elm) (hne : l ≠ []) :
    l.getLastD default = hget l (l.length - 1) := by
  induction l with
  | nil => exact absurd rfl hne
  | cons a t ih =>
    cases t with
    | nil => rfl
    | cons b s =>
      have h1 : (a :: b :: s).getLastD default = (b :: s).getLastD default := rfl
      rw [h1, ih (by simp)]
      have h2 : (a :: b :: s).length - 1 = ((b :: s).length - 1) + 1 := by simp
      rw [h2, hget_cons_succ]

/-- dropLast keeps the entries before the last index. -/
lemma hget_dropLast (l : List Elm) (k : Nat) (hk : k < l.length - 1) :
    hget l.dropLast k = hget l k := by
  induction l generalizing k with
  | nil => rfl
  | cons a t ih =>
    cases t with
    | nil => simp at hk
    | cons b s =>
      cases k with
      | zero => rfl
      | succ k2 =>
        have h1 : (a :: b :: s).dropLast = a :: (b :: s).dropLast := rfl
        rw [h1, hget_cons_succ, hget_cons_succ]
        exact ih k2 (by simpa using hk)

/-- The list is its dropLast plus its last entry. -/
lemma dropLast_append_getLastD (l : List Elm) (hne : l ≠ []) :
    l.dropLast ++ [l.getLastD default] = l := by
  induction l with
  | nil => exact absurd rfl hne
  | cons a t ih =>
    cases t with
    | nil => rfl
    | cons b s =>
      have h1 : (a :: b :: s).dropLast = a :: (b :: s).dropLast := rfl
      have h2 : (a :: b :: s).getLastD default = (b :: s).getLastD default := rfl
      rw [h1, h2]
      have h3 := ih (by simp)
      exact congrArg (List.cons a) h3

/-- heapPop of a nonempty heap: the returned entry and remaining list
permute the input, the remainder is one shorter and is again a heap, and the
returned entry dominates the remainder. -/
lemma heapPop_spec (l : List Elm) (hne : l ≠ []) (hh : HeapFrom l l.length 0) :
    ((heapPop l).1 :: (heapPop l).2).Perm l ∧
    (heapPop l).2.length = l.length - 1 ∧
    HeapFrom (heapPop l).2 (l.length - 1) 0 ∧
    (∀ e ∈ (heapPop l).2, e.val ≤ (heapPop l).1.val) := by
  have hlen : 1 ≤ l.length := by
    cases l with
    | nil => exact absurd rfl hne
    | cons a t => simp
  set n := l.length with hn
  set l1 := hswap l 0 (n - 1) with hl1
  set l2 := downH l1 0 (n - 1) with hl2
  have hlen1 : l1.length = n := by rw [hl1, hswap_length]
  have hlen2 : l2.length = n := by rw [hl2, downH, downGo_length, hlen1]
  have hne2 : l2 ≠ [] := by
    intro hcon
    rw [hcon] at hlen2
    simp at hlen2
    omega
  have hlast : hget l2 (n - 1) = hget l 0 := by
    rw [hl2, downH, downGo_untouched (n-1) (n-1+1) l1 0 (n-1) (le_refl _)]
    rcases eq_or_ne (n - 1) 0 with hz | hz
    · rw [hl1, hz, hget_hswap_same]
    · rw [hl1]
      exact hget_hswap_right l 0 (n-1) (by omega)
  have hpop1 : (heapPop l).1 = hget l 0 := by
    show (l2.getLastD default) = hget l 0
    rw [getLastD_eq_hget l2 hne2, hlen2, hlast]
  have hpop2 : (heapPop l).2 = l2.dropLast := rfl
  have hperm2 : l2.Perm l := by
    have hp1 : l2.Perm l1 := by
      rw [hl2, downH]
      exact downGo_perm (n-1) (n-1+1) l1 0 (by omega)
    refine hp1.trans ?_
    rw [hl1]
    exact hswap_perm l 0 (n-1) (by omega) (by omega)
  have hheap2 : HeapFrom l2 (n - 1) 0 := by
    rw [hl2, downH]
    apply downGo_spec (n-1) (n-1+1) l1 0 0
    · omega
    · omega
    · exact le_refl 0
    · intro i j hi hi0 hj hjn
      have hii : i ≠ 0 := hi0
      have hjj : j ≠ 0 := by omega
      have hin : i ≠ n - 1 := by omega
      have hjn2 : j ≠ n - 1 := by omega
      rw [hl1, hget_hswap_other l 0 (n-1) i hii hin, hget_hswap_other l 0 (n-1) j hjj hjn2]
      exact hh i j (Nat.zero_le _) hj (by omega)
    · intro hcon
      omega
  refine ⟨?_, ?_, ?_, ?_⟩
  · rw [hpop1, hpop2, ← hlast]
    have hcat : l2.dropLast ++ [l2.getLastD default] = l2 := dropLast_append_getLastD l2 hne2
    have hlg : l2.getLastD default = hget l2 (n - 1) := by
      rw [getLastD_eq_hget l2 hne2, hlen2]
    have hps : (hget l2 (n-1) :: l2.dropLast).Perm (l2.dropLast ++ [hget l2 (n-1)]) :=
      (List.perm_append_singleton _ _).symm
    rw [← hlg] at hps
    rw [← hlg]
    refine hps.trans ?_
    rw [hcat]
    exact hperm2
  · rw [hpop2]
    simp [hlen2]
  · rw [hpop2]
    intro i j hi hj hjn
    rw [hget_dropLast l2 i (by omega), hget_dropLast l2 j (by omega)]
    exact hheap2 i j hi hj hjn
  · intro e he
    rw [hpop2] at he
    have hel2 : e ∈ l2 := List.Sublist.subset (List.dropLast_sublist l2) he
    have hel : e ∈ l := hperm2.subset hel2
    rw [hpop1]
    exact heap_mem_le_root l hh e hel

/-- drainGo is the element-level drain followed by move projection. -/
lemma drainGo_eq_drainE : ∀ fuel ml, drainGo fuel ml = (drainE fuel ml.h).map (fun e => e.m) := by
  intro fuel
  induction fuel with
  | zero => intro ml; rfl
  | succ f ih =>
    intro ml
    simp only [drainGo, MoveList.next, drainE]
    by_cases h : ml.h.length = 0
    · simp [h]
    · simp [h, ih]

/-- Draining a heap yields a permutation of it in non-increasing value
order. -/
lemma drainE_spec : ∀ n l, l.length = n → HeapFrom l n 0 →
    (drainE n l).Perm l ∧ (drainE n l).Pairwise (fun a b => b.val ≤ a.val) := by
  intro n
  induction n with
  | zero =>
    intro l hl _
    have hnil : l = [] := List.length_eq_zero.mp hl
    subst hnil
    exact ⟨List.Perm.refl [], List.Pairwise.nil⟩
  | succ n2 ih =>
    intro l hl hh
    have hne : l ≠ [] := by
      intro hc
      rw [hc] at hl
      simp at hl
    have hh2 : HeapFrom l l.length 0 := by rw [hl]; exact hh
    have hpop := heapPop_spec l hne hh2
    have hrl : (heapPop l).2.length = n2 := by
      rw [hpop.2.1, hl]
      omega
    have hrh : HeapFrom (heapPop l).2 n2 0 := by
      have h9 := hpop.2.2.1
      rw [hl] at h9
      exact h9
    have hih := ih (heapPop l).2 hrl hrh
    have hstep : drainE (n2+1) l = (heapPop l).1 :: drainE n2 (heapPop l).2 := by
      simp only [drainE]
      rw [if_neg]
      omega
    rw [hstep]
    constructor
    · exact (List.Perm.cons (heapPop l).1 hih.1).trans hpop.1
    · refine List.pairwise_cons.mpr ⟨?_, hih.2⟩
      intro b hb
      have hbm : b ∈ (heapPop l).2 := hih.1.subset hb
      exact hpop.2.2.2 b hbm

/-- The full move-list specification: draining NewMoveList yields every move
of the slice exactly once, in non-increasing priority order. -/
lemma newMoveList_drain_spec (moves : List Move) (fn : Move → Int) :
    ((newMoveList moves fn).drain).Perm moves ∧
    (((newMoveList moves fn).drain).map fn).Pairwise (fun a b => b ≤ a) := by
  set elms := moves.map (fun m => ({ m := m, val := fn m } : Elm)) with helms
  have hip : (heapInit elms).Perm elms := heapInit_perm elms
  have hil : (heapInit elms).length = elms.length := hip.length_eq
  have hih : HeapFrom (heapInit elms) (heapInit elms).length 0 := by
    have h0 := heapInit_spec elms
    rw [← hil] at h0
    exact h0
  have hds := drainE_spec (heapInit elms).length (heapInit elms) rfl hih
  have hdrain : (newMoveList moves fn).drain =
      (drainE (heapInit elms).length (heapInit elms)).map (fun e => e.m) := by
    rw [MoveList.drain, drainGo_eq_drainE]
    rfl
  have hmem : ∀ e ∈ drainE (heapInit elms).length (heapInit elms), e.val = fn e.m := by
    intro e he
    have h1 : e ∈ elms := hip.subset (hds.1.subset he)
    rw [helms] at h1
    rcases List.mem_map.mp h1 with ⟨mv, _, hmk⟩
    rw [← hmk]
  constructor
  · rw [hdrain]
    have hp2 : ((drainE (heapInit elms).length (heapInit elms)).map (fun e => e.m)).Perm
        (elms.map (fun e => e.m)) := (hds.1.trans hip).map (fun e => e.m)
    refine hp2.trans ?_
    rw [helms, List.map_map]
    have hcomp : ((fun e : Elm => e.m) ∘ fun m => ({ m := m, val := fn m } : Elm)) = id := rfl
    rw [hcomp, List.map_id]
  · rw [hdrain, List.map_map]
    rw [List.pairwise_map]
    refine List.Pairwise.imp_of_mem ?_ hds.2
    intro a b ha hb hr
    have hva := hmem a ha
    have hvb := hmem b hb
    simp only [Function.comp]
    rw [← hva, ← hvb]
    exact hr

/-- wrap64I is the identity on the int64 range. -/
lemma wrap64I_eq_self (x : Int) (h1 : -(2 ^ 63) ≤ x) (h2 : x < 2 ^ 63) : wrap64I x = x := by
  have hp : ((2:Int) ^ 63) = 9223372036854775808 := by norm_num
  have hq : ((2:Int) ^ 64) = 18446744073709551616 := by norm_num
  unfold wrap64I
  rw [hp, hq]
  rw [hp] at h1 h2
  omega

/-- Magnitude of truncated division under a divisor of at least four. -/
lemma tdiv_natAbs_le (a d : Int) (hd : 4 ≤ d.natAbs) :
    (Int.tdiv a d).natAbs ≤ a.natAbs / 4 := by
  rw [Int.natAbs_tdiv]
  calc a.natAbs / d.natAbs ≤ a.natAbs / 4 :=
    Nat.div_le_div_left hd (by norm_num)

/-- Claim C1. The spec requires the Less order with negative mates sorted by
being-mated-later preferred: MateInX(-1) below MateInX(-2). The code compares
raw mate values for negative mates, so Less(M(-1), M(-2)) is false and
Less(M(-2), M(-1)) is true, inverting the required within-group order, while
the positive-mate and cross-group comparisons match the spec. -/
theorem claimC1_behavior :
    (mateInXScore (-1)).less (mateInXScore (-2)) = false ∧
    (mateInXScore (-2)).less (mateInXScore (-1)) = true ∧
    (mateInXScore 2).less (mateInXScore 1) = true ∧
    (mateInXScore (-1)).less (heuristicScore 0) = true ∧
    (heuristicScore 0).less (mateInXScore 2) = true ∧
    (mateInXScore (-2)).less (heuristicScore 0) = true ∧
    (heuristicScore 0).less (mateInXScore 1) = true := by decide

set_option maxRecDepth 100000 in
set_option maxHeartbeats 1000000 in
/-- Claim C2. The zobrist round trip fails on the very first move of a game:
for the concrete table built from the positive value stream, the incremental
Move hash of g1f3 from the initial position differs from the direct Hash of
the resulting position, and the difference is exactly the castling keys of
state 15 AND lost (the key the code xors) versus 15 AND-NOT lost (the key of
the new position), the AND versus AND-NOT slip on the castling line. -/
theorem claimC2_behavior :
    mvG1f3 ∈ initialPosition.pseudoLegalMoves white ∧
    initialPosition.move mvG1f3 = some pos1C2 ∧
    ztTest.moveHash (ztTest.hashP initialPosition white) initialPosition mvG1f3 ≠
      ztTest.hashP pos1C2 black ∧
    ztTest.moveHash (ztTest.hashP initialPosition white) initialPosition mvG1f3 ^^^
        ztTest.castling (initialPosition.castling &&& mvG1f3.castlingRightsLost) ^^^
        ztTest.castling (initialPosition.castling &&& compl64 mvG1f3.castlingRightsLost) =
      ztTest.hashP pos1C2 black := by decide

/-- Claim C3. Pushing the sequence e2e4 e7e5 g1f3 b8c6 f3g1 c6b8 g1f3 b8c6
f3g1 c6b8 from the initial position: every push succeeds but the result stays
Unknown rather than Draw by threefold repetition, because the position after
e7e5 carries the en passant target e6 and so neither its hash nor its exact
position matches the later occurrences; the board only adjudicates the draw
one ply later, after an eleventh push g1f3. -/
theorem claimC3_behavior :
    pushAll ztTest boardStart seqC3 = (c3b10, true) ∧
    c3b10.result = ({} : Result) ∧
    ({} : Result) ≠ ({ outcome := drawO, reason := repetition3R } : Result) ∧
    pushAll ztTest boardStart (seqC3 ++ [mvG1f3]) = (c3b11, true) ∧
    c3b11.result = ({ outcome := drawO, reason := repetition3R } : Result) := by
  refine ⟨c3chain, by decide, by decide, c3chain11, by decide⟩

/-- Claim C4. The transposition-table replacement policy: a Write replaces
the entry in the indexed slot exactly when the fresh entry's value, ply plus
twice depth in uint16 arithmetic with empty slots valued 0, is at least the
existing entry's value, and Write returns true exactly when the fresh entry
is installed, leaving the table untouched otherwise. -/
theorem claimC4_policy (t : TTable) (hash bnd ply depth : Nat) (score : Score) (move : Move) :
    ((t.write hash bnd ply depth score move).2 = true ↔
      ttVal (t.slots (hash &&& t.mask)) ≤ ttVal (some (mkTTNode hash bnd ply depth score move))) ∧
    ((t.write hash bnd ply depth score move).2 = true →
      (t.write hash bnd ply depth score move).1.slots (hash &&& t.mask) =
        some (mkTTNode hash bnd ply depth score move)) ∧
    ((t.write hash bnd ply depth score move).2 = false →
      (t.write hash bnd ply depth score move).1 = t) := by
  simp only [TTable.write]
  split
  · rename_i h
    refine ⟨?_, ?_, ?_⟩
    · simp only []
      constructor
      · intro hcon
        simp at hcon
      · intro hle
        omega
    · intro hcon
      simp at hcon
    · intro _
      rfl
  · rename_i h
    refine ⟨?_, ?_, ?_⟩
    · simp only []
      constructor
      · intro _
        omega
      · intro _
        trivial
    · intro _
      simp
    · intro hcon
      simp at hcon

/-- Witness for claim C4: on an empty one-slot table a write of a depth-1
entry is installed and returns true. -/
theorem claimC4_witness :
    (({ mask := 7, slots := fun _ => none, used := 0 } : TTable).write 7 exactBound 0 1
      (heuristicScore 1) zeroMove).2 = true ∧
    (({ mask := 7, slots := fun _ => none, used := 0 } : TTable).write 7 exactBound 0 1
      (heuristicScore 1) zeroMove).1.slots 7 =
      some (mkTTNode 7 exactBound 0 1 (heuristicScore 1) zeroMove) := by
  have h := claimC4_policy { mask := 7, slots := fun _ => none, used := 0 } 7 exactBound 0 1
    (heuristicScore 1) zeroMove
  have h2 : (({ mask := 7, slots := fun _ => none, used := 0 } : TTable).write 7 exactBound 0 1
      (heuristicScore 1) zeroMove).2 = true := h.1.mpr (by decide)
  refine ⟨h2, ?_⟩
  have h3 := h.2.1 h2
  simpa using h3

set_option maxRecDepth 100000 in
set_option maxHeartbeats 1000000 in
/-- Counterexample for claim C5. A state whose transposition table holds an
entry at the full board hash with Exact bound and depth equal to the
remaining depth 1, yet whose cached score Heuristic 5 is below beta: the
alpha-beta search does not return the cached score but proceeds past the
probe (here to the no-legal-move adjudication, returning the zero score). -/
theorem claimC5_counterexample :
    stC5.tt.read stC5.b.hashCur = (exactBound, 1, heuristicScore 5, zeroMove, true) ∧
    stC5.b.result.outcome ≠ drawO ∧
    stC5.quitC = false ∧
    (searchAB pickAny zeroPlyConst 1 stC5 negInfScore infScore).2.1 = zeroScore ∧
    zeroScore ≠ heuristicScore 5 := by decide

set_option maxRecDepth 100000 in
set_option maxHeartbeats 1000000 in
/-- Claim C5 as amended: the probe returns the cached score as a cutoff,
without iterating the move list or growing the node counter, only when the
entry additionally satisfies score at least beta; the search then returns
the cached score with the state unchanged. -/
theorem claimC5_amended (pick : Move → Board → Bool)
    (qeval : TTable → Board → Score → Score → Nat × Score)
    (depth : Nat) (st : SearchState) (alpha beta score : Score) (mv : Move)
    (hquit : st.quitC = false)
    (hnd : st.b.result.outcome ≠ drawO)
    (hrd : st.tt.read st.b.hashCur = (exactBound, depth, score, mv, true))
    (hbeta : (beta == score || beta.less score) = true) :
    searchAB pick qeval depth st alpha beta = (st, score, []) := by
  have hprobe : ttProbe (exactBound, depth, score, mv, true) depth beta = some score := by
    simp [ttProbe, hbeta]
  rw [searchAB, hquit]
  rw [if_neg (by decide : ¬(false = true))]
  rw [if_neg hnd, hrd]
  simp only [hprobe]

set_option maxRecDepth 100000 in
set_option maxHeartbeats 1000000 in
/-- Witness for claim C5 as amended: with window up to Heuristic 3 and the
cached Exact depth-1 entry Heuristic 5, the search returns the cached score
with the state unchanged. -/
theorem claimC5_witness :
    searchAB pickAny zeroPlyConst 1 stC5 (heuristicScore 0) (heuristicScore 3) =
      (stC5, heuristicScore 5, []) :=
  claimC5_amended pickAny zeroPlyConst 1 stC5 (heuristicScore 0) (heuristicScore 3)
    (heuristicScore 5) zeroMove rfl (by decide) (by decide) (by decide)

set_option maxRecDepth 100000 in
/-- Claim C6. After the single legal push of white castling king side from a
castling-ready start, HasCastled reports true for black as well, although
only white has castled: the condition of the Go scan parses as
(t == c and QueenSideCastle) or KingSideCastle, so a king-side castle by
either color matches. -/
theorem claimC6_behavior :
    mvOO ∈ posC6.pseudoLegalMoves white ∧
    (boardC6.pushMove ztTest mvOO).2 = true ∧
    (boardC6.pushMove ztTest mvOO).1.turn = black ∧
    (boardC6.pushMove ztTest mvOO).1.hasCastled black = true ∧
    (boardC6.pushMove ztTest mvOO).1.hasCastled white = true := by decide

set_option maxRecDepth 100000 in
/-- Claim C7. The accepted capture a1xa8 both moves the white queen-side
rook off a1 and captures the rook on a8, yet the resulting position keeps
black's queen-side castling right: CastlingRightsLost is a first-match
switch, and the from-square case a1 shadows the capture on a8. White's own
queen-side right is dropped. -/
theorem claimC7_behavior :
    mvA1xa8 ∈ posC7.pseudoLegalMoves white ∧
    posC7.moveOk mvA1xa8 = true ∧
    posC7.move mvA1xa8 = some (posC7.moveResult mvA1xa8) ∧
    castlingIsAllowed (posC7.moveResult mvA1xa8).castling blackQueenSideCastle = true ∧
    castlingIsAllowed (posC7.moveResult mvA1xa8).castling whiteQueenSideCastle = false := by
  decide

/-- Claim C8. For every slice of moves and every priority function, draining
NewMoveList by repeated Next yields every move of the slice exactly once (a
permutation), and the priorities of the yielded moves are non-increasing. -/
theorem claimC8_movelist (moves : List Move) (fn : Move → Int) :
    ((newMoveList moves fn).drain).Perm moves ∧
    (((newMoveList moves fn).drain).map fn).Pairwise (fun a b => b ≤ a) :=
  newMoveList_drain_spec moves fn

/-- Counterexample for claim C9: with the Moves field negative (here -1) the
code still uses the default M = 40, soft = 160 / 80 = 2 and hard = 6, while
the claim formula M = Moves + 1 = 0 yields a zero divisor and no such
values. -/
theorem claimC9_counterexample :
    tcLimits ⟨160, 0, -1⟩ white = (2, 6) ∧
    limitsClaimC9 ⟨160, 0, -1⟩ white = (0, 0) ∧
    tcLimits ⟨160, 0, -1⟩ white ≠ limitsClaimC9 ⟨160, 0, -1⟩ white := by decide

/-- Claim C9 as amended: within the int64 range, Limits returns
soft = T tdiv (2 M) and hard = 3 soft where M = Moves + 1 when Moves is
positive and M = 40 otherwise (including zero and negative values), the
division truncating toward zero. -/
theorem claimC9_amended (t : TimeControl) (c : Nat)
    (hw1 : -(2 ^ 63) ≤ t.white) (hw2 : t.white < 2 ^ 63)
    (hb1 : -(2 ^ 63) ≤ t.black) (hb2 : t.black < 2 ^ 63)
    (hm2 : t.moves < 2 ^ 62 - 1) :
    tcLimits t c =
      (Int.tdiv (if c = black then t.black else t.white)
        (2 * (if t.moves > 0 then t.moves + 1 else 40)),
       3 * Int.tdiv (if c = black then t.black else t.white)
        (2 * (if t.moves > 0 then t.moves + 1 else 40))) := by
  have hT1 : -(2 ^ 63) ≤ (if c = black then t.black else t.white) := by
    split <;> assumption
  have hT2 : (if c = black then t.black else t.white) < 2 ^ 63 := by
    split <;> assumption
  set T := if c = black then t.black else t.white with hTdef
  by_cases hm : t.moves > 0
  · have hM1 : wrap64I (t.moves + 1) = t.moves + 1 := by
      apply wrap64I_eq_self <;> omega
    have hd : wrap64I (2 * (t.moves + 1)) = 2 * (t.moves + 1) := by
      apply wrap64I_eq_self <;> omega
    have hd4 : 4 ≤ (2 * (t.moves + 1)).natAbs := by omega
    have hsoft : (Int.tdiv T (2 * (t.moves + 1))).natAbs ≤ T.natAbs / 4 :=
      tdiv_natAbs_le T (2 * (t.moves + 1)) hd4
    have hTa : T.natAbs / 4 ≤ 2 ^ 63 / 4 := by
      apply Nat.div_le_div_right
      omega
    have hh : wrap64I (3 * Int.tdiv T (2 * (t.moves + 1))) =
        3 * Int.tdiv T (2 * (t.moves + 1)) := by
      apply wrap64I_eq_self <;> omega
    simp only [tcLimits, if_pos hm, ← hTdef, hM1, hd, hh]
  · have hd : wrap64I (2 * (40:Int)) = 80 :=
      (wrap64I_eq_self (2 * 40) (by norm_num) (by norm_num)).trans (by norm_num)
    have hsoft : (Int.tdiv T 80).natAbs ≤ T.natAbs / 4 :=
      tdiv_natAbs_le T 80 (by norm_num)
    have hTa : T.natAbs / 4 ≤ 2 ^ 63 / 4 := by
      apply Nat.div_le_div_right
      omega
    have hh : wrap64I (3 * Int.tdiv T 80) = 3 * Int.tdiv T 80 := by
      apply wrap64I_eq_self <;> omega
    simp only [tcLimits, if_neg hm, ← hTdef, hd, hh]
    norm_num

/-- Witness for claim C9 as amended: 300 nanoseconds for white with two
moves to go gives soft 300 tdiv 6 = 50 and hard 150. -/
theorem claimC9_witness :
    tcLimits ⟨300, 100, 2⟩ white = (50, 150) := by
  have h := claimC9_amended ⟨300, 100, 2⟩ white (by norm_num) (by norm_num) (by norm_num)
    (by norm_num) (by norm_num)
  simpa using h

/-- Claim C10. A failed PushMove, whether rejected on a terminal result or
because Position.Move finds the move illegal, returns the board completely
unchanged: every failure path returns before any state is touched. -/
theorem claimC10_atomic (zt : ZTable) (b : Board) (m : Move)
    (h : (b.pushMove zt m).2 = false) : (b.pushMove zt m).1 = b := by
  by_cases hres : b.result.reason = checkmateR ∨ b.result.reason = stalemateR
  · simp [Board.pushMove, hres]
  · cases hmv : b.current.pos.move m with
    | none => simp [Board.pushMove, hres, hmv]
    | some nxt =>
      exfalso
      rw [Board.pushMove, if_neg hres, hmv] at h
      simp at h

/-- Witness for claim C10: pushing a move from an empty square on the start
board fails and leaves the board unchanged. -/
theorem claimC10_witness :
    (boardStart.pushMove ztTest { type := normalM, fromSq := 35, toSq := 36, piece := pawnP }).2 =
      false ∧
    (boardStart.pushMove ztTest { type := normalM, fromSq := 35, toSq := 36, piece := pawnP }).1 =
      boardStart :=
  ⟨by decide, claimC10_atomic ztTest boardStart _ (by decide)⟩

end Morlock
